import Mathlib

/-!
Verification development for the Map Marker Engine of the `my-trip` repository.

The engine lives in `src/lib/utils/coordinates.ts` (coordinate normalization),
the `marker-colors.ts` utility (icon construction), and the `NaverMap`
component of `src/components/tour-detail/detail-info.tsx` (marker registry,
viewport fitting, highlight state machine, imperative command surface).

Modelling conventions:
* A JavaScript number is modelled as `Option ℚ`, with `none` playing the role
  of `NaN`.  Every comparison against `NaN` is `false` and every arithmetic
  operation propagates `NaN`, exactly as in JavaScript.  The coordinate code
  never produces infinities (the only divisions are by the nonzero constants
  10000000, 2 and a guarded nonzero list length), so `Option ℚ` is a faithful
  model of the doubles that actually occur.
* Rational arithmetic is performed through `Rat.divInt`-based operations
  (`qAdd`, `qMul`, ...) that the kernel can evaluate, and each such operation
  is proved equal to the corresponding field operation on `ℚ` (`qAdd_eq`,
  ...), so theorems can be stated with ordinary `+`, `*`, `/`.
* `parseFloat` is modelled for the decimal/scientific notation it receives
  from the tour API: optional leading whitespace, optional sign, digits with
  an optional fraction and an optional exponent, ignoring trailing garbage.
  A string with no numeric prefix parses to `NaN` (`none`).
* JavaScript string truthiness (`!s`) is emptiness of the string.
-/

namespace MyTrip

/-- Kernel-evaluable addition on `ℚ` (the builtin `Rat.add` does not reduce
in the kernel). -/
def qAdd (a b : ℚ) : ℚ :=
  Rat.divInt (a.num * b.den + a.den * b.num) (a.den * b.den)

/-- Kernel-evaluable multiplication on `ℚ`. -/
def qMul (a b : ℚ) : ℚ :=
  Rat.divInt (a.num * b.num) (a.den * b.den)

/-- Kernel-evaluable division on `ℚ`. -/
def qDiv (a b : ℚ) : ℚ :=
  Rat.divInt (a.num * b.den) (a.den * b.num)

/-- Kernel-evaluable subtraction on `ℚ`. -/
def qSub (a b : ℚ) : ℚ :=
  qAdd a (-b)

/-- Kernel-evaluable `min` on `ℚ`. -/
def qMin (a b : ℚ) : ℚ :=
  if a < b then a else b

/-- Kernel-evaluable `max` on `ℚ`. -/
def qMax (a b : ℚ) : ℚ :=
  if a < b then b else a

/-- Kernel-evaluable `(10 : ℚ) ^ (e : ℤ)`. -/
def qTenPow (e : Int) : ℚ :=
  if 0 ≤ e then Rat.divInt ((10 ^ e.toNat : ℕ) : ℤ) 1
  else Rat.divInt 1 ((10 ^ (-e).toNat : ℕ) : ℤ)

/-- A JavaScript number: `none` is `NaN`. -/
abbrev JsNum := Option ℚ

/-- `v < c` for a JS number and a rational constant; false on `NaN`. -/
def jlt (v : JsNum) (c : ℚ) : Bool :=
  match v with
  | some a => decide (a < c)
  | none => false

/-- `v > c` for a JS number and a rational constant; false on `NaN`. -/
def jgt (v : JsNum) (c : ℚ) : Bool :=
  match v with
  | some a => decide (c < a)
  | none => false

/-- Division of a JS number by a nonzero rational constant; `NaN` propagates. -/
def jdiv (v : JsNum) (c : ℚ) : JsNum :=
  v.map (fun a => qDiv a c)

/-- Addition of JS numbers; `NaN` propagates. -/
def jadd (u v : JsNum) : JsNum :=
  match u, v with
  | some a, some b => some (qAdd a b)
  | _, _ => none

/-- Subtraction of JS numbers; `NaN` propagates. -/
def jsub (u v : JsNum) : JsNum :=
  match u, v with
  | some a, some b => some (qSub a b)
  | _, _ => none

/-- `Math.min` of two JS numbers; `NaN` propagates. -/
def jmin2 (u v : JsNum) : JsNum :=
  match u, v with
  | some a, some b => some (qMin a b)
  | _, _ => none

/-- `Math.max` of two JS numbers; `NaN` propagates. -/
def jmax2 (u v : JsNum) : JsNum :=
  match u, v with
  | some a, some b => some (qMax a b)
  | _, _ => none

/-- `Math.min(...l)` for a nonempty spread; the empty case is never reached
by the guarded code and is mapped to `NaN`. -/
def jminList : List JsNum → JsNum
  | [] => none
  | x :: xs => xs.foldl jmin2 x

/-- `Math.max(...l)` for a nonempty spread. -/
def jmaxList : List JsNum → JsNum
  | [] => none
  | x :: xs => xs.foldl jmax2 x

/-- Numeric value of a digit string, most significant digit first. -/
def digitsVal (ds : List Char) : Nat :=
  ds.foldl (fun a c => 10 * a + (c.toNat - 48)) 0

/-- The optional exponent suffix of a JavaScript float literal
(`e5`, `E-3`, `e+2`, ...); anything else contributes exponent 0,
mirroring `parseFloat`'s longest-valid-prefix rule. -/
def parseExpPart : List Char → Int
  | [] => 0
  | c :: rest =>
    if c = 'e' ∨ c = 'E' then
      match rest with
      | '+' :: r2 =>
        let ds := r2.takeWhile Char.isDigit
        if ds = [] then 0 else (digitsVal ds : Int)
      | '-' :: r2 =>
        let ds := r2.takeWhile Char.isDigit
        if ds = [] then 0 else -(digitsVal ds : Int)
      | r2 =>
        let ds := r2.takeWhile Char.isDigit
        if ds = [] then 0 else (digitsVal ds : Int)
    else 0

/-- The unsigned part of `parseFloat`: digits, optional fraction, optional
exponent.  Returns `none` (`NaN`) if no digits are present at all. -/
def parseUnsignedFloat (cs : List Char) : Option ℚ :=
  let intDs := cs.takeWhile Char.isDigit
  let rest1 := cs.dropWhile Char.isDigit
  match rest1 with
  | '.' :: rest2 =>
    let fracDs := rest2.takeWhile Char.isDigit
    let rest3 := rest2.dropWhile Char.isDigit
    if intDs = [] ∧ fracDs = [] then none
    else
      some (qMul
        (qAdd (digitsVal intDs : ℚ) (qDiv (digitsVal fracDs : ℚ) ((10 ^ fracDs.length : ℕ) : ℚ)))
        (qTenPow (parseExpPart rest3)))
  | _ =>
    if intDs = [] then none
    else some (qMul (digitsVal intDs : ℚ) (qTenPow (parseExpPart rest1)))

/-- JavaScript `parseFloat` on the decimal notation used for coordinates:
skip leading whitespace, optional sign, then the longest numeric prefix.
Non-numeric input gives `NaN` (`none`). -/
def parseFloat (s : String) : JsNum :=
  let cs := s.data.dropWhile Char.isWhitespace
  match cs with
  | '-' :: rest => (parseUnsignedFloat rest).map (fun q => -q)
  | '+' :: rest => parseUnsignedFloat rest
  | _ => parseUnsignedFloat cs

/-- `Coordinates` of `src/lib/types/tour.ts`: WGS84 longitude/latitude. -/
structure Coordinates where
  longitude : JsNum
  latitude : JsNum
deriving DecidableEq, Repr

/-- The fields of `TourItem` (`src/lib/types/tour.ts`) consumed by the map
engine. -/
structure TourItem where
  contentid : String
  contenttypeid : String
  title : String
  addr1 : String
  addr2 : String
  mapx : String
  mapy : String
deriving DecidableEq, Repr

/-- JavaScript falsiness of a string: only the empty string is falsy. -/
def strFalsy (s : String) : Bool :=
  s = ""

/-- The per-axis normalization step of `convertKATECToWGS84`
(`src/lib/utils/coordinates.ts` lines 47-52): a value outside `[lo, hi]`
is divided by 10000000, a value inside (or `NaN`) is left unchanged. -/
def normalizeAxis (lo hi : ℚ) (v : JsNum) : JsNum :=
  if jgt v hi || jlt v lo then jdiv v 10000000 else v

/-- `convertKATECToWGS84` (`src/lib/utils/coordinates.ts` lines 38-58):
parse both strings, then apply the Korea bounding-box heuristic per axis
(longitude box `[124, 132]`, latitude box `[33, 43]`). -/
def convertKATECToWGS84 (mapx mapy : String) : Coordinates :=
  { longitude := normalizeAxis 124 132 (parseFloat mapx)
    latitude := normalizeAxis 33 43 (parseFloat mapy) }

/-- `getTourCoordinates` (`src/lib/utils/coordinates.ts` lines 121-129):
`null` when either raw string is falsy (empty), otherwise the conversion. -/
def getTourCoordinates (tour : TourItem) : Option Coordinates :=
  if strFalsy tour.mapx || strFalsy tour.mapy then none
  else some (convertKATECToWGS84 tour.mapx tour.mapy)

/-- Division of a JS number by a list length (`sum / coordinates.length`). -/
def jdivNat (v : JsNum) (n : Nat) : JsNum :=
  v.map (fun a => qDiv a (n : ℚ))

/-- `calculateCenterCoordinates` (`src/lib/utils/coordinates.ts` lines
74-103): arithmetic mean of the coordinates of the tours whose raw
coordinate strings are both truthy. -/
def calculateCenterCoordinates (tours : List TourItem) : Option Coordinates :=
  if tours.length = 0 then none
  else
    let coordinates :=
      (tours.filter (fun t => !strFalsy t.mapx && !strFalsy t.mapy)).map
        (fun t => convertKATECToWGS84 t.mapx t.mapy)
    if coordinates.length = 0 then none
    else
      let sumLongitude := coordinates.foldl (fun sum c => jadd sum c.longitude) (some 0)
      let sumLatitude := coordinates.foldl (fun sum c => jadd sum c.latitude) (some 0)
      some
        { longitude := jdivNat sumLongitude coordinates.length
          latitude := jdivNat sumLatitude coordinates.length }

/-! ### Marker icons (`src/lib/utils/marker-colors.ts`) -/

/-- The `MARKER_COLORS` record: marker fill color by content type id. -/
def MARKER_COLORS (contentTypeId : String) : Option String :=
  if contentTypeId = "12" then some "#3B82F6"
  else if contentTypeId = "14" then some "#8B5CF6"
  else if contentTypeId = "15" then some "#EF4444"
  else if contentTypeId = "25" then some "#10B981"
  else if contentTypeId = "28" then some "#F59E0B"
  else if contentTypeId = "32" then some "#92400E"
  else if contentTypeId = "38" then some "#EC4899"
  else if contentTypeId = "39" then some "#FBBF24"
  else none

/-- The `MARKER_BORDER_COLORS` record: marker border color by content type id. -/
def MARKER_BORDER_COLORS (contentTypeId : String) : Option String :=
  if contentTypeId = "12" then some "#1E40AF"
  else if contentTypeId = "14" then some "#6D28D9"
  else if contentTypeId = "15" then some "#DC2626"
  else if contentTypeId = "25" then some "#059669"
  else if contentTypeId = "28" then some "#D97706"
  else if contentTypeId = "32" then some "#78350F"
  else if contentTypeId = "38" then some "#DB2777"
  else if contentTypeId = "39" then some "#D97706"
  else none

/-- `getMarkerColor`: record lookup with the tour-spot color as fallback.
All colors are non-empty strings, so JS `color || default` is `getD`. -/
def getMarkerColor (contentTypeId : String) : String :=
  (MARKER_COLORS contentTypeId).getD "#3B82F6"

/-- `getMarkerBorderColor`: record lookup with the tour-spot border fallback. -/
def getMarkerBorderColor (contentTypeId : String) : String :=
  (MARKER_BORDER_COLORS contentTypeId).getD "#1E40AF"

/-- The parameters interpolated into the HTML markup of `createMarkerIcon`.
The markup template is a fixed function of these four values (and is
injective in them), so the model keeps the parameters instead of the
rendered string. -/
structure IconContent where
  color : String
  borderColor : String
  size : ℚ
  borderWidth : ℚ
deriving DecidableEq, Repr

/-- An icon `size` object (`{ width, height }`). -/
structure IconDim where
  width : ℚ
  height : ℚ
deriving DecidableEq, Repr

/-- An icon `anchor` object (`{ x, y }`). -/
structure IconPoint where
  x : ℚ
  y : ℚ
deriving DecidableEq, Repr

/-- The value returned by `createMarkerIcon`:
`{ content, size: {size, size}, anchor: {size/2, size/2} }`. -/
structure MarkerIcon where
  content : IconContent
  size : IconDim
  anchor : IconPoint
deriving DecidableEq, Repr

/-- `createMarkerIcon` (`marker-colors.ts`): circular HTML marker with the
given colors; the callers pass `size` and `borderWidth` explicitly. -/
def createMarkerIcon (color borderColor : String) (size borderWidth : ℚ) : MarkerIcon :=
  { content := { color := color, borderColor := borderColor, size := size,
                 borderWidth := borderWidth }
    size := { width := size, height := size }
    anchor := { x := qDiv size 2, y := qDiv size 2 } }

/-- `getMarkerIconByType`: the normal icon of a category
(`size: 24, borderWidth: 2`). -/
def getMarkerIconByType (contentTypeId : String) : MarkerIcon :=
  createMarkerIcon (getMarkerColor contentTypeId) (getMarkerBorderColor contentTypeId) 24 2

/-- Modelled from the spec: `getHighlightedMarkerIconByType` is imported by
the map component from `marker-colors.ts`, but its definition is not part of
the repository snapshot.  The spec (§3, IconSpec) requires an *emphasized*
variant per category, distinct from the *normal* variant; it is modelled as
the same circular icon built from the category's colors at a larger size. -/
def getHighlightedMarkerIconByType (contentTypeId : String) : MarkerIcon :=
  createMarkerIcon (getMarkerColor contentTypeId) (getMarkerBorderColor contentTypeId) 32 3

/-- An icon "displays the emphasized variant" iff it has the emphasized
size (the normal variant has width 24, the emphasized one 32). -/
def isEmphasized (i : MarkerIcon) : Bool :=
  decide (i.size.width = 32)

/-! ### The `NaverMap` component state
(`src/components/tour-detail/detail-info.tsx`, lines 450-825)

The component's mutable refs are collected in one `MapState` record:
`mapInstanceRef`, `markersRef`, `infoWindowsRef`, `markerIndexMapRef`,
`originalIconsRef`, `highlightedMarkerIdRef`, and the SDK readiness
condition (`window.naver?.maps` together with `isScriptLoaded`, which are
always equal when the map-initialization effect runs). -/

/-- A `{ lat, lng }` literal as passed to the map SDK. -/
structure LatLng where
  lat : JsNum
  lng : JsNum
deriving DecidableEq, Repr

/-- The state of the SDK map object that the component reads and writes:
its center and zoom. -/
structure NaverMapInst where
  center : LatLng
  zoom : Int
deriving DecidableEq, Repr

/-- A marker object: position, title, current icon, and whether it is
attached to the map (`setMap(null)` detaches). -/
structure Marker where
  position : LatLng
  title : String
  icon : MarkerIcon
  onMap : Bool
deriving DecidableEq, Repr

/-- An info window object: the entity data interpolated into its content
and whether it is currently open. -/
structure InfoWindow where
  contentId : String
  title : String
  address : String
  isOpen : Bool
deriving DecidableEq, Repr

/-- The refs of one mounted `NaverMap`. -/
structure MapState where
  mapInstance : Option NaverMapInst
  markers : List Marker
  infoWindows : List InfoWindow
  markerIndexMap : List (String × Nat)
  originalIcons : List (String × MarkerIcon)
  highlightedMarkerId : Option String
  sdkReady : Bool
deriving DecidableEq, Repr

/-- A fresh mount: no map, no markers, nothing highlighted. -/
def initState (ready : Bool) : MapState :=
  { mapInstance := none, markers := [], infoWindows := [], markerIndexMap := []
    originalIcons := [], highlightedMarkerId := none, sdkReady := ready }

/-- `Map.get` on an insertion-ordered map modelled as an association list. -/
def mapGet {α : Type} (m : List (String × α)) (k : String) : Option α :=
  (m.find? (fun p => p.1 = k)).map Prod.snd

/-- `Map.set`: overwrite an existing key or append a new binding. -/
def mapSet {α : Type} (m : List (String × α)) (k : String) (v : α) : List (String × α) :=
  if m.any (fun p => p.1 = k) then m.map (fun p => if p.1 = k then (k, v) else p)
  else m ++ [(k, v)]

/-- Replace the element at an index, if it exists. -/
def updateAt {α : Type} (l : List α) (i : Nat) (f : α → α) : List α :=
  match l.get? i with
  | none => l
  | some a => l.set i (f a)

/-- JavaScript `Array.prototype.findIndex`, with `-1` modelled as `none`. -/
def jsFindIndex {α : Type} (p : α → Bool) : List α → Option Nat
  | [] => none
  | x :: xs => if p x then some 0 else (jsFindIndex p xs).map (fun n => n + 1)

/-! ### The imperative command surface (`useImperativeHandle`, lines 467-582) -/

/-- `moveToMarker` (lines 468-491): find the tour by id; if it and the map
exist and its coordinates resolve, recenter the map, then — if an info
window exists at the tour's index — close every info window and open that
one. -/
def moveToMarker (tours : List TourItem) (contentId : String) (s : MapState) : MapState :=
  match tours.find? (fun t => t.contentid = contentId) with
  | none => s
  | some tour =>
    match s.mapInstance with
    | none => s
    | some m =>
      match getTourCoordinates tour with
      | none => s
      | some coords =>
        let newCenter : LatLng := { lat := coords.latitude, lng := coords.longitude }
        let s1 := { s with mapInstance := some ({ m with center := newCenter }) }
        match jsFindIndex (fun t => t.contentid = contentId) tours with
        | none => s1
        | some markerIndex =>
          if (s1.infoWindows.get? markerIndex).isSome then
            let closed := s1.infoWindows.map (fun iw => { iw with isOpen := false })
            { s1 with infoWindows := updateAt closed markerIndex (fun iw => { iw with isOpen := true }) }
          else s1

/-- `setCenter` (lines 492-498). -/
def setCenterCmd (longitude latitude : JsNum) (s : MapState) : MapState :=
  match s.mapInstance with
  | none => s
  | some m =>
    { s with mapInstance := some ({ m with center := { lat := latitude, lng := longitude } }) }

/-- `highlightMarker` (lines 499-562): gated on a registered index, a live
marker, a matching tour and SDK readiness; a re-highlight of the current id
is suppressed; otherwise the previous highlight is restored from the
original-icon cache, the normal icon of the target is cached if missing,
and the target marker gets the emphasized icon. -/
def highlightMarker (tours : List TourItem) (contentId : String) (s : MapState) : MapState :=
  match mapGet s.markerIndexMap contentId with
  | none => s
  | some markerIndex =>
    if (s.markers.get? markerIndex).isNone then s
    else
      match tours.find? (fun t => t.contentid = contentId) with
      | none => s
      | some tour =>
        if !s.sdkReady then s
        else if s.highlightedMarkerId = some contentId then s
        else
          let s1 :=
            match s.highlightedMarkerId with
            | none => s
            | some prevId =>
              match mapGet s.markerIndexMap prevId with
              | none => s
              | some prevIndex =>
                if (s.markers.get? prevIndex).isNone then s
                else
                  match mapGet s.originalIcons prevId with
                  | none => s
                  | some originalIcon =>
                    let restored := updateAt s.markers prevIndex (fun m => { m with icon := originalIcon })
                    { s with markers := restored }
          let cached := mapSet s1.originalIcons contentId (getMarkerIconByType tour.contenttypeid)
          let s2 :=
            if (mapGet s1.originalIcons contentId).isSome then s1
            else { s1 with originalIcons := cached }
          let emphasizedMarkers :=
            updateAt s2.markers markerIndex
              (fun m => { m with icon := getHighlightedMarkerIconByType tour.contenttypeid })
          let s3 := { s2 with markers := emphasizedMarkers }
          { s3 with highlightedMarkerId := some contentId }

/-- `unhighlightMarker` (lines 563-581): restore the highlighted marker's
cached icon (when id, marker and cache entry exist) and clear the highlight. -/
def unhighlightMarker (s : MapState) : MapState :=
  match s.highlightedMarkerId with
  | none => s
  | some contentId =>
    match mapGet s.markerIndexMap contentId with
    | none => { s with highlightedMarkerId := none }
    | some markerIndex =>
      if (s.markers.get? markerIndex).isNone then { s with highlightedMarkerId := none }
      else
        match mapGet s.originalIcons contentId with
        | none => { s with highlightedMarkerId := none }
        | some originalIcon =>
          let restored := updateAt s.markers markerIndex (fun m => { m with icon := originalIcon })
          { s with markers := restored, highlightedMarkerId := none }

/-! ### Map initialization / rebuild effect (lines 626-800) -/

/-- `marker?.setMap(null)` over a marker array. -/
def detachAll (ms : List Marker) : List Marker :=
  ms.map (fun m => { m with onMap := false })

/-- `iw?.close()` over an info-window array. -/
def closeAll (ws : List InfoWindow) : List InfoWindow :=
  ws.map (fun w => { w with isOpen := false })

/-- One iteration of the `tours.forEach` marker-creation loop
(lines 656-744): skip unresolvable coordinates; otherwise create the
marker, record its index, cache its normal icon and create its info window.
(The click-listener registration only wires up later events and has no
effect on the state modelled here.) -/
def addTourMarker (st : MapState) (tour : TourItem) : MapState :=
  match getTourCoordinates tour with
  | none => st
  | some coords =>
    let marker : Marker :=
      { position := { lat := coords.latitude, lng := coords.longitude }
        title := tour.title
        icon := getMarkerIconByType tour.contenttypeid
        onMap := true }
    let markers1 := st.markers ++ [marker]
    let address := if strFalsy tour.addr2 then tour.addr1 else tour.addr1 ++ " " ++ tour.addr2
    { st with
      markers := markers1
      markerIndexMap := mapSet st.markerIndexMap tour.contentid (markers1.length - 1)
      originalIcons := mapSet st.originalIcons tour.contentid (getMarkerIconByType tour.contenttypeid)
      infoWindows := st.infoWindows ++ [{ contentId := tour.contentid, title := tour.title, address := address, isOpen := false }] }

/-- `map.setCenter(...)`. -/
def setMapCenter (st : MapState) (c : LatLng) : MapState :=
  match st.mapInstance with
  | none => st
  | some m => { st with mapInstance := some ({ m with center := c }) }

/-- `map.setZoom(...)`. -/
def setMapZoom (st : MapState) (z : Int) : MapState :=
  match st.mapInstance with
  | none => st
  | some m => { st with mapInstance := some ({ m with zoom := z }) }

/-- The multi-tour viewport adjustment (lines 746-781): with more than one
tour and at least one resolvable coordinate, recenter on the bounding-box
midpoint and pick the zoom from the span step table. -/
def viewportAdjust (tours : List TourItem) (st : MapState) : MapState :=
  if 1 < tours.length then
    let validCoords := tours.filterMap getTourCoordinates
    if 0 < validCoords.length then
      let minLat := jminList (validCoords.map Coordinates.latitude)
      let maxLat := jmaxList (validCoords.map Coordinates.latitude)
      let minLng := jminList (validCoords.map Coordinates.longitude)
      let maxLng := jmaxList (validCoords.map Coordinates.longitude)
      let st1 := setMapCenter st
        { lat := jdiv (jadd minLat maxLat) 2, lng := jdiv (jadd minLng maxLng) 2 }
      let maxDiff := jmax2 (jsub maxLat minLat) (jsub maxLng minLng)
      let zoom : Int :=
        if jlt maxDiff (Rat.divInt 1 100) then 15
        else if jlt maxDiff (Rat.divInt 5 100) then 13
        else if jlt maxDiff (Rat.divInt 1 10) then 12
        else if jlt maxDiff (Rat.divInt 1 2) then 10
        else 8
      setMapZoom st1 zoom
    else st
  else st

/-- The Seoul city-hall fallback center `{ lat: 37.5665, lng: 126.9780 }`. -/
def defaultCenter : LatLng :=
  { lat := some (Rat.divInt 375665 10000), lng := some (Rat.divInt 126978 1000) }

/-- The body of the map-initialization effect (lines 626-781), guarded by
SDK readiness: detach the previous markers and close the previous info
windows, reset both arrays, build the map at the mean center (zoom 12, or
the fallback center at zoom 10), create the markers, and run the viewport
adjustment.  Besides the new state it returns the torn-down marker and
info-window objects of the previous session. -/
def rebuildEffect (tours : List TourItem) (s : MapState) :
    MapState × List Marker × List InfoWindow :=
  if !s.sdkReady then (s, [], [])
  else
    let oldMarkers := detachAll s.markers
    let oldInfoWindows := closeAll s.infoWindows
    let center := calculateCenterCoordinates tours
    let mapCenter : LatLng :=
      match center with
      | some c => { lat := c.latitude, lng := c.longitude }
      | none => defaultCenter
    let zoom0 : Int := if center.isSome then 12 else 10
    let s1 := { s with markers := ([] : List Marker), infoWindows := ([] : List InfoWindow)
                       mapInstance := some ({ center := mapCenter, zoom := zoom0 }) }
    let s2 := tours.foldl addTourMarker s1
    (viewportAdjust tours s2, oldMarkers, oldInfoWindows)

/-- The effect cleanup (lines 783-799): detach all markers, close all info
windows, clear the index map and icon cache, reset the highlight. -/
def cleanupEffect (s : MapState) : MapState :=
  { s with
    markers := detachAll s.markers
    infoWindows := closeAll s.infoWindows
    markerIndexMap := []
    originalIcons := []
    highlightedMarkerId := none }

/-- One React re-render of the effect: the previous effect's cleanup runs,
then the effect body. -/
def rebuildSession (tours : List TourItem) (s : MapState) :
    MapState × List Marker × List InfoWindow :=
  rebuildEffect tours (cleanupEffect s)

/-! ### Script loading and rendering (for the credential claim) -/

/-- JS falsiness of `process.env.X`: missing or empty. -/
def envFalsy (v : Option String) : Bool :=
  match v with
  | none => true
  | some s => strFalsy s

/-- State of the script-loading effect of `NaverMap` (lines 585-623). -/
structure ScriptLoadState where
  scriptLoadedRef : Bool
  isScriptLoaded : Bool
  scriptRequested : Bool
  consoleErrors : List String
deriving DecidableEq, Repr

/-- A fresh script-load state. -/
def initScriptLoadState : ScriptLoadState :=
  { scriptLoadedRef := false, isScriptLoaded := false, scriptRequested := false
    consoleErrors := [] }

/-- What the component renders in the map area. -/
inductive MapAreaView where
  | mapContainer
  | errorBox (msg : String)
deriving DecidableEq, Repr

/-- The `NaverMap` script-loading effect (lines 585-623): with a falsy
credential it logs to the console and returns without requesting the
script; otherwise it requests (or observes) the SDK. -/
def naverMapLoadEffect (clientId : Option String) (naverPresent : Bool)
    (s : ScriptLoadState) : ScriptLoadState :=
  if s.scriptLoadedRef then
    if naverPresent then { s with isScriptLoaded := true } else s
  else if envFalsy clientId then
    { s with consoleErrors := s.consoleErrors ++ ["NEXT_PUBLIC_NAVER_MAP_CLIENT_ID 환경변수가 설정되지 않았습니다."] }
  else if naverPresent then
    { s with scriptLoadedRef := true, isScriptLoaded := true }
  else
    { s with scriptRequested := true }

/-- What `NaverMap` renders (lines 802-819): always the map container and
the legend — the component has no error state at all. -/
def naverMapRenderMapArea (_s : ScriptLoadState) : MapAreaView :=
  MapAreaView.mapContainer

/-- State of the sibling single-marker `DetailMap` component
(`src/components/tour-detail/detail-map.tsx`), which does keep a
`mapError` state. -/
structure DetailMapState where
  scriptLoadedRef : Bool
  isScriptLoaded : Bool
  scriptRequested : Bool
  mapError : Option String
  consoleErrors : List String
deriving DecidableEq, Repr

/-- A fresh `DetailMap` state. -/
def initDetailMapState : DetailMapState :=
  { scriptLoadedRef := false, isScriptLoaded := false, scriptRequested := false
    mapError := none, consoleErrors := [] }

/-- The `DetailMap` script-loading effect (`detail-map.tsx` lines 128-170):
identical gating, but a falsy credential additionally sets the `mapError`
state. -/
def detailMapLoadEffect (clientId : Option String) (naverPresent : Bool)
    (s : DetailMapState) : DetailMapState :=
  if s.scriptLoadedRef then
    if naverPresent then { s with isScriptLoaded := true } else s
  else if envFalsy clientId then
    { s with
      consoleErrors := s.consoleErrors ++ ["NEXT_PUBLIC_NAVER_MAP_CLIENT_ID 환경변수가 설정되지 않았습니다."]
      mapError := some "지도 API 설정이 필요합니다." }
  else if naverPresent then
    { s with scriptLoadedRef := true, isScriptLoaded := true }
  else
    { s with scriptRequested := true }

/-- What `DetailMap` renders in its map area (`detail-map.tsx` lines
290-306): the error message when `mapError` is set, else the container. -/
def detailMapRenderMapArea (s : DetailMapState) : MapAreaView :=
  match s.mapError with
  | some msg => MapAreaView.errorBox msg
  | none => MapAreaView.mapContainer

/-! ### Reachability and specification-side notions used by the claims -/

/-- Number of markers currently displaying the emphasized icon. -/
def emphCount (s : MapState) : Nat :=
  s.markers.countP (fun m => isEmphasized m.icon)

/-- The association-list maps used by the component never bind one index to
two different ids. -/
def MapInjective (m : List (String × Nat)) : Prop :=
  ∀ k1 k2 i, mapGet m k1 = some i → mapGet m k2 = some i → k1 = k2

/-- The states of one mounted `NaverMap` reachable by any interleaving of
renders (prop changes), effect runs (rebuilds), the SDK-readiness flip, and
imperative commands.  Commands close over the `tours` prop of the render
that created them, which may differ from the list of the last effect run,
so every transition may use an arbitrary current `tours`. -/
inductive Reachable : List TourItem → MapState → Prop where
  | init (tours : List TourItem) (ready : Bool) : Reachable tours (initState ready)
  | sdkLoaded (tours : List TourItem) (s : MapState) :
      Reachable tours s → Reachable tours { s with sdkReady := true }
  | propsChange (tours tours' : List TourItem) (s : MapState) :
      Reachable tours s → Reachable tours' s
  | rebuild (tours : List TourItem) (s : MapState) :
      Reachable tours s → Reachable tours (rebuildSession tours s).1
  | move (tours : List TourItem) (s : MapState) (id : String) :
      Reachable tours s → Reachable tours (moveToMarker tours id s)
  | recenter (tours : List TourItem) (s : MapState) (lng lat : JsNum) :
      Reachable tours s → Reachable tours (setCenterCmd lng lat s)
  | highlight (tours : List TourItem) (s : MapState) (id : String) :
      Reachable tours s → Reachable tours (highlightMarker tours id s)
  | unhighlight (tours : List TourItem) (s : MapState) :
      Reachable tours s → Reachable tours (unhighlightMarker s)

/-- The internal invariant of a mounted `NaverMap`:
1. every cached original icon is a normal (non-emphasized) icon;
2. with no highlight, no marker is emphasized; with a highlight, the
   highlighted id has a registered in-bounds index with a cached original
   icon, and every other index is non-emphasized;
3. the index map is injective;
4. before SDK readiness no marker exists. -/
def Inv (s : MapState) : Prop :=
  (∀ p ∈ s.originalIcons, isEmphasized p.2 = false) ∧
  (match s.highlightedMarkerId with
   | none => ∀ m ∈ s.markers, isEmphasized m.icon = false
   | some id => ∃ idx, mapGet s.markerIndexMap id = some idx ∧ idx < s.markers.length ∧
       (mapGet s.originalIcons id).isSome = true ∧
       ∀ j, j ≠ idx → ∀ m, s.markers.get? j = some m → isEmphasized m.icon = false) ∧
  MapInjective s.markerIndexMap ∧
  (s.sdkReady = false → s.markers = [])

/-- The invariant maintained by the marker-creation fold of the rebuild
effect: normal icons everywhere, registered indices in bounds, an injective
index map, no highlight, SDK ready. -/
def BuildInv (st : MapState) : Prop :=
  (∀ q ∈ st.originalIcons, isEmphasized q.2 = false) ∧
  (∀ m ∈ st.markers, isEmphasized m.icon = false) ∧
  (∀ q ∈ st.markerIndexMap, q.2 < st.markers.length) ∧
  MapInjective st.markerIndexMap ∧
  st.highlightedMarkerId = none ∧
  st.sdkReady = true

/-- The zoom step table of the spec (§4.3), on the bounding-box span. -/
def stepZoom (d : ℚ) : Int :=
  if d < 1 / 100 then 15
  else if d < 5 / 100 then 13
  else if d < 1 / 10 then 12
  else if d < 1 / 2 then 10
  else 8

/-- Minimum of a nonempty list of rationals, given as head and tail. -/
def listMinQ (q : ℚ) (l : List ℚ) : ℚ :=
  l.foldl min q

/-- Maximum of a nonempty list of rationals, given as head and tail. -/
def listMaxQ (q : ℚ) (l : List ℚ) : ℚ :=
  l.foldl max q

/-- A real (`NaN`-free) position, written as a `(longitude, latitude)`
pair of rationals. -/
def realCoord (p : ℚ × ℚ) : Coordinates :=
  { longitude := some p.1, latitude := some p.2 }

/-- Larger of the latitude span and the longitude span of a nonempty
position list. -/
def bboxSpan (p : ℚ × ℚ) (ps : List (ℚ × ℚ)) : ℚ :=
  max (listMaxQ p.2 (ps.map Prod.snd) - listMinQ p.2 (ps.map Prod.snd))
      (listMaxQ p.1 (ps.map Prod.fst) - listMinQ p.1 (ps.map Prod.fst))

/-- Bounding-box midpoint latitude of a nonempty position list. -/
def bboxMidLat (p : ℚ × ℚ) (ps : List (ℚ × ℚ)) : ℚ :=
  (listMinQ p.2 (ps.map Prod.snd) + listMaxQ p.2 (ps.map Prod.snd)) / 2

/-- Bounding-box midpoint longitude of a nonempty position list. -/
def bboxMidLng (p : ℚ × ℚ) (ps : List (ℚ × ℚ)) : ℚ :=
  (listMinQ p.1 (ps.map Prod.fst) + listMaxQ p.1 (ps.map Prod.fst)) / 2

/-! ### Concrete fixtures used by witnesses and counterexamples -/

/-- A tour with decimal WGS84 coordinate strings. -/
def demoTourA : TourItem :=
  { contentid := "a1", contenttypeid := "12", title := "Spot A", addr1 := "Addr A"
    addr2 := "", mapx := "126.5", mapy := "37.5" }

/-- A second tour with decimal WGS84 coordinate strings. -/
def demoTourB : TourItem :=
  { contentid := "b2", contenttypeid := "39", title := "Spot B", addr1 := "Addr B"
    addr2 := "", mapx := "127.5", mapy := "36.5" }

/-- A tour whose longitude string is non-numeric and non-empty. -/
def demoBadTour : TourItem :=
  { contentid := "bad1", contenttypeid := "12", title := "Bad", addr1 := ""
    addr2 := "", mapx := "abc", mapy := "37.5" }

/-- A tour at longitude 126, latitude 37. -/
def demoTourP : TourItem :=
  { contentid := "p", contenttypeid := "12", title := "P", addr1 := ""
    addr2 := "", mapx := "126", mapy := "37" }

/-- A second tour at the same position as `demoTourP`. -/
def demoTourQ : TourItem :=
  { contentid := "q", contenttypeid := "14", title := "Q", addr1 := ""
    addr2 := "", mapx := "126", mapy := "37" }

/-- A tour at longitude 128, latitude 38. -/
def demoTourR : TourItem :=
  { contentid := "r", contenttypeid := "15", title := "R", addr1 := ""
    addr2 := "", mapx := "128", mapy := "38" }

/-! ### Basic lemmas about the kernel-evaluable arithmetic -/

theorem qAdd_eq (a b : ℚ) : qAdd a b = a + b :=
  (Rat.add_num_den a b).symm

theorem qMul_eq (a b : ℚ) : qMul a b = a * b := by
  rw [qMul, Rat.divInt_eq_div]
  push_cast
  rw [← div_mul_div_comm, Rat.num_div_den, Rat.num_div_den]

theorem qDiv_eq (a b : ℚ) : qDiv a b = a / b := by
  rcases eq_or_ne b 0 with hb | hb
  · subst hb
    simp [qDiv]
  · have hbn : (b.num : ℚ) ≠ 0 := by
      exact_mod_cast Rat.num_ne_zero.mpr hb
    have hbd : ((b.den : ℤ) : ℚ) ≠ 0 := by
      exact_mod_cast Nat.cast_ne_zero.mpr b.den_nz
    have had : ((a.den : ℤ) : ℚ) ≠ 0 := by
      exact_mod_cast Nat.cast_ne_zero.mpr a.den_nz
    rw [qDiv, Rat.divInt_eq_div]
    push_cast
    conv_rhs => rw [← Rat.num_div_den a, ← Rat.num_div_den b]
    rw [div_div_div_eq]

theorem qSub_eq (a b : ℚ) : qSub a b = a - b := by
  rw [qSub, qAdd_eq, sub_eq_add_neg]

theorem qMin_eq (a b : ℚ) : qMin a b = min a b := by
  rw [qMin, min_def]
  rcases lt_trichotomy a b with h | h | h
  · rw [if_pos h, if_pos h.le]
  · subst h
    simp
  · rw [if_neg (not_lt.mpr h.le), if_neg (not_le.mpr h)]

theorem qMax_eq (a b : ℚ) : qMax a b = max a b := by
  rw [qMax, max_def]
  rcases lt_trichotomy a b with h | h | h
  · rw [if_pos h, if_pos h.le]
  · subst h
    simp
  · rw [if_neg (not_lt.mpr h.le), if_neg (not_le.mpr h)]

theorem qTenPow_eq (e : Int) : qTenPow e = (10 : ℚ) ^ e := by
  rcases le_or_lt 0 e with h | h
  · rw [qTenPow, if_pos h, Rat.divInt_eq_div]
    push_cast
    rw [div_one, ← zpow_natCast, Int.toNat_of_nonneg h]
  · rw [qTenPow, if_neg (not_le.mpr h), Rat.divInt_eq_div]
    push_cast
    rw [one_div, ← zpow_natCast, Int.toNat_of_nonneg (by omega : (0:ℤ) ≤ -e), ← zpow_neg,
      neg_neg]

theorem isEmphasized_highlighted (t : String) :
    isEmphasized (getHighlightedMarkerIconByType t) = true := rfl

theorem isEmphasized_normal (t : String) :
    isEmphasized (getMarkerIconByType t) = false := rfl

/-! ### Lemmas about coordinate normalization -/

theorem normalizeAxis_none (lo hi : ℚ) : normalizeAxis lo hi none = none := rfl

theorem normalizeAxis_some (lo hi q : ℚ) :
    normalizeAxis lo hi (some q) =
      if hi < q ∨ q < lo then some (q / 10000000) else some q := by
  simp only [normalizeAxis, jgt, jlt, jdiv, Option.map_some', qDiv_eq, Bool.or_eq_true,
    decide_eq_true_eq]

theorem normalizeAxis_some_of_mem (lo hi q : ℚ) (h1 : lo ≤ q) (h2 : q ≤ hi) :
    normalizeAxis lo hi (some q) = some q := by
  rw [normalizeAxis_some, if_neg]
  push_neg
  exact ⟨h2, h1⟩

theorem normalizeAxis_some_of_not_mem (lo hi q : ℚ) (h : ¬(lo ≤ q ∧ q ≤ hi)) :
    normalizeAxis lo hi (some q) = some (q / 10000000) := by
  rw [normalizeAxis_some, if_pos]
  rcases not_and_or.mp h with h1 | h1
  · exact Or.inr (not_le.mp h1)
  · exact Or.inl (not_le.mp h1)

theorem getTourCoordinates_eq_none_iff (tour : TourItem) :
    getTourCoordinates tour = none ↔ (tour.mapx = "" ∨ tour.mapy = "") := by
  unfold getTourCoordinates strFalsy
  split
  · simp_all
  · simp_all

/-- The coordinate list built inside `calculateCenterCoordinates` is the
same list as `tours.filterMap getTourCoordinates`. -/
theorem filter_map_eq_filterMap (tours : List TourItem) :
    (tours.filter (fun t => !strFalsy t.mapx && !strFalsy t.mapy)).map
      (fun t => convertKATECToWGS84 t.mapx t.mapy) = tours.filterMap getTourCoordinates := by
  induction tours with
  | nil => rfl
  | cons t ts ih =>
    rw [List.filter_cons, List.filterMap_cons]
    cases hx : strFalsy t.mapx <;> cases hy : strFalsy t.mapy <;>
      simp [getTourCoordinates, hx, hy, ih]

/-! ### Field-preservation lemmas for the rebuild effect -/

theorem setMapCenter_markers (st : MapState) (c : LatLng) :
    (setMapCenter st c).markers = st.markers := by
  cases h : st.mapInstance <;> simp [setMapCenter, h]

theorem setMapZoom_markers (st : MapState) (z : Int) :
    (setMapZoom st z).markers = st.markers := by
  cases h : st.mapInstance <;> simp [setMapZoom, h]

theorem viewportAdjust_markers (tours : List TourItem) (st : MapState) :
    (viewportAdjust tours st).markers = st.markers := by
  unfold viewportAdjust
  split
  · dsimp only
    split
    · rw [setMapZoom_markers, setMapCenter_markers]
    · rfl
  · rfl

theorem addTourMarker_markers_length (st : MapState) (t : TourItem) :
    (addTourMarker st t).markers.length =
      st.markers.length + (if (getTourCoordinates t).isSome then 1 else 0) := by
  unfold addTourMarker
  cases h : getTourCoordinates t <;> simp [h]

theorem foldl_addTourMarker_markers_length (tours : List TourItem) (st : MapState) :
    (tours.foldl addTourMarker st).markers.length =
      st.markers.length + (tours.filterMap getTourCoordinates).length := by
  induction tours generalizing st with
  | nil => simp
  | cons t ts ih =>
    rw [List.foldl_cons, ih, addTourMarker_markers_length, List.filterMap_cons]
    cases h : getTourCoordinates t
    · simp [h]
    · simp [h]
      omega

/-! ### Claim C1: non-numeric coordinate strings -/

/-- Claim C1 counterexample: the entity `demoBadTour` has the non-numeric
raw longitude `"abc"`, yet coordinate resolution does not fail — it returns
a position with a `NaN` longitude — and the rebuild still creates a marker
for the entity, contradicting the claimed exclusion. -/
theorem claim_C1_counterexample :
    getTourCoordinates demoBadTour =
      some { longitude := none, latitude := some (75 / 2) } ∧
    (rebuildSession [demoBadTour] (initState true)).1.markers.length = 1 := by
  constructor
  · have h : getTourCoordinates demoBadTour =
        some { longitude := none, latitude := some (Rat.divInt 75 2) } := by decide
    rw [h]
    norm_num [Rat.divInt_eq_div]
  · decide

/-- Claim C1 (amended): normalization never reports a parse failure — a
non-numeric raw string yields a `NaN` component instead.  The Marker
Registry excludes exactly the entities with an *absent* (empty) coordinate
string; an entity whose strings are non-empty but non-numeric is kept, and
the rebuild creates one marker per non-excluded entity. -/
theorem claim_C1_amended :
    (∀ tour : TourItem, getTourCoordinates tour = none ↔
      (tour.mapx = "" ∨ tour.mapy = "")) ∧
    (∀ tour : TourItem, tour.mapx ≠ "" → tour.mapy ≠ "" → parseFloat tour.mapx = none →
      ∃ lat, getTourCoordinates tour = some { longitude := none, latitude := lat }) ∧
    (∀ tours : List TourItem, ∀ s : MapState, s.sdkReady = true →
      (rebuildSession tours s).1.markers.length =
        (tours.filterMap getTourCoordinates).length) := by
  refine ⟨getTourCoordinates_eq_none_iff, ?_, ?_⟩
  · intro tour hx hy hparse
    refine ⟨normalizeAxis 33 43 (parseFloat tour.mapy), ?_⟩
    unfold getTourCoordinates strFalsy
    rw [if_neg (by simp [hx, hy])]
    unfold convertKATECToWGS84
    rw [hparse, normalizeAxis_none]
  · intro tours s hready
    unfold rebuildSession rebuildEffect
    rw [show (cleanupEffect s).sdkReady = true from hready, Bool.not_true, if_neg (by simp)]
    simp only
    rw [viewportAdjust_markers, foldl_addTourMarker_markers_length]
    simp

/-- Claim C1 amended-theorem witness at concrete inputs. -/
theorem claim_C1_witness :
    (∃ lat, getTourCoordinates demoBadTour = some { longitude := none, latitude := lat }) ∧
    (rebuildSession [demoBadTour, demoTourA] (initState true)).1.markers.length =
      ([demoBadTour, demoTourA].filterMap getTourCoordinates).length :=
  ⟨claim_C1_amended.2.1 demoBadTour (by decide) (by decide) (by decide),
   claim_C1_amended.2.2 [demoBadTour, demoTourA] (initState true) rfl⟩

/-! ### Claim C2: the bounding-box format heuristic -/

/-- Claim C2: `normalize` parses each axis; a parsed value inside the Korea
box (`[124,132]` for longitude, `[33,43]` for latitude) is returned
unchanged, a parsed value outside is divided by 10000000; and the two wire
formats of the same position normalize to the same value:
`normalize("1269998434","374296913") = normalize("126.9998434","37.4296913")
= {longitude: 126.9998434, latitude: 37.4296913}`. -/
theorem claim_C2_format_invariance :
    (∀ x y : String, ∀ qx : ℚ, parseFloat x = some qx →
      ((124 ≤ qx ∧ qx ≤ 132) → (convertKATECToWGS84 x y).longitude = some qx) ∧
      (¬(124 ≤ qx ∧ qx ≤ 132) →
        (convertKATECToWGS84 x y).longitude = some (qx / 10000000))) ∧
    (∀ x y : String, ∀ qy : ℚ, parseFloat y = some qy →
      ((33 ≤ qy ∧ qy ≤ 43) → (convertKATECToWGS84 x y).latitude = some qy) ∧
      (¬(33 ≤ qy ∧ qy ≤ 43) →
        (convertKATECToWGS84 x y).latitude = some (qy / 10000000))) ∧
    convertKATECToWGS84 "1269998434" "374296913" =
      { longitude := some (1269998434 / 10000000), latitude := some (374296913 / 10000000) } ∧
    convertKATECToWGS84 "126.9998434" "37.4296913" =
      { longitude := some (1269998434 / 10000000), latitude := some (374296913 / 10000000) } := by
  have hconv : convertKATECToWGS84 "1269998434" "374296913" =
      { longitude := some (Rat.divInt 634999217 5000000)
        latitude := some (Rat.divInt 374296913 10000000) } := by decide
  have hconv2 : convertKATECToWGS84 "126.9998434" "37.4296913" =
      { longitude := some (Rat.divInt 634999217 5000000)
        latitude := some (Rat.divInt 374296913 10000000) } := by decide
  refine ⟨?_, ?_, ?_, ?_⟩
  · intro x y qx hx
    unfold convertKATECToWGS84
    rw [hx]
    exact ⟨fun h => normalizeAxis_some_of_mem _ _ _ h.1 h.2,
      fun h => normalizeAxis_some_of_not_mem _ _ _ h⟩
  · intro x y qy hy
    unfold convertKATECToWGS84
    rw [hy]
    exact ⟨fun h => normalizeAxis_some_of_mem _ _ _ h.1 h.2,
      fun h => normalizeAxis_some_of_not_mem _ _ _ h⟩
  · rw [hconv]
    simp only [Coordinates.mk.injEq, Option.some.injEq]
    constructor <;> norm_num [Rat.divInt_eq_div]
  · rw [hconv2]
    simp only [Coordinates.mk.injEq, Option.some.injEq]
    constructor <;> norm_num [Rat.divInt_eq_div]

/-- Claim C2 witness at concrete inputs: a value inside the box passes
through unchanged, a value outside is divided by 10000000. -/
theorem claim_C2_witness :
    (convertKATECToWGS84 "126.5" "37.5").longitude = some (253 / 2) ∧
    (convertKATECToWGS84 "1269998434" "37.5").longitude =
      some (1269998434 / 10000000) := by
  have hp : parseFloat "126.5" = some (253 / 2) := by
    have h : parseFloat "126.5" = some (Rat.divInt 253 2) := by decide
    rw [h]
    norm_num [Rat.divInt_eq_div]
  have hp2 : parseFloat "1269998434" = some 1269998434 := by
    have h : parseFloat "1269998434" = some (Rat.divInt 1269998434 1) := by decide
    rw [h]
    norm_num [Rat.divInt_eq_div]
  exact ⟨(claim_C2_format_invariance.1 "126.5" "37.5" (253 / 2) hp).1 (by norm_num),
    (claim_C2_format_invariance.1 "1269998434" "37.5" 1269998434 hp2).2 (by norm_num)⟩

/-! ### Claim C7: idempotence of normalization -/

/-- Claim C7 counterexample: the raw longitude `"999"` parses to 999, is
outside the box and is divided once, producing the output 0.0000999 — which
is still outside the box, so re-normalizing that output divides it again
and yields a different value.  Idempotence therefore fails for this output
position of `normalize`. -/
theorem claim_C7_counterexample :
    (convertKATECToWGS84 "999" "37.5").longitude = some (999 / 10000000) ∧
    normalizeAxis 124 132 (some (999 / 10000000)) = some (999 / 100000000000000) ∧
    (999 / 10000000 : ℚ) ≠ 999 / 100000000000000 := by
  refine ⟨?_, ?_, by norm_num⟩
  · have h : (convertKATECToWGS84 "999" "37.5").longitude =
        some (Rat.divInt 999 10000000) := by decide
    rw [h]
    norm_num [Rat.divInt_eq_div]
  · rw [normalizeAxis_some, if_pos (by norm_num)]
    norm_num

/-- Claim C7 (amended): on raw pairs whose parsed values lie inside the
Korea box, `normalize` is the identity; and an output of `normalize` is a
fixed point of re-normalization provided it lies inside the box (`NaN`
outputs are fixed as well).  Outputs outside the box exist (see the
counterexample) and are divided again, so idempotence does not hold for
every output. -/
theorem claim_C7_amended :
    (∀ x y : String, ∀ qx qy : ℚ, parseFloat x = some qx → parseFloat y = some qy →
      124 ≤ qx → qx ≤ 132 → 33 ≤ qy → qy ≤ 43 →
      convertKATECToWGS84 x y = { longitude := some qx, latitude := some qy }) ∧
    (∀ lo hi : ℚ, ∀ v : JsNum, ∀ q : ℚ, normalizeAxis lo hi v = some q →
      lo ≤ q → q ≤ hi →
      normalizeAxis lo hi (normalizeAxis lo hi v) = normalizeAxis lo hi v) ∧
    (∀ lo hi : ℚ, normalizeAxis lo hi (normalizeAxis lo hi none) = normalizeAxis lo hi none) := by
  refine ⟨?_, ?_, ?_⟩
  · intro x y qx qy hx hy h1 h2 h3 h4
    unfold convertKATECToWGS84
    rw [hx, hy, normalizeAxis_some_of_mem _ _ _ h1 h2, normalizeAxis_some_of_mem _ _ _ h3 h4]
  · intro lo hi v q hq h1 h2
    rw [hq, normalizeAxis_some_of_mem _ _ _ h1 h2]
  · intro lo hi
    rw [normalizeAxis_none, normalizeAxis_none]

/-- Claim C7 amended-theorem witness at concrete inputs. -/
theorem claim_C7_witness :
    convertKATECToWGS84 "126.5" "37.5" =
      { longitude := some (253 / 2), latitude := some (75 / 2) } ∧
    normalizeAxis 124 132 (normalizeAxis 124 132 (some 126)) =
      normalizeAxis 124 132 (some 126) := by
  have hp : parseFloat "126.5" = some (253 / 2) := by
    have h : parseFloat "126.5" = some (Rat.divInt 253 2) := by decide
    rw [h]
    norm_num [Rat.divInt_eq_div]
  have hp2 : parseFloat "37.5" = some (75 / 2) := by
    have h : parseFloat "37.5" = some (Rat.divInt 75 2) := by decide
    rw [h]
    norm_num [Rat.divInt_eq_div]
  refine ⟨claim_C7_amended.1 "126.5" "37.5" (253 / 2) (75 / 2) hp hp2
      (by norm_num) (by norm_num) (by norm_num) (by norm_num),
    claim_C7_amended.2.1 124 132 (some 126) 126
      (normalizeAxis_some_of_mem _ _ _ (by norm_num) (by norm_num))
      (by norm_num) (by norm_num)⟩

/-! ### Lemmas about teardown -/

theorem detachAll_length (ms : List Marker) : (detachAll ms).length = ms.length := by
  simp [detachAll]

theorem detachAll_onMap (ms : List Marker) : ∀ m ∈ detachAll ms, m.onMap = false := by
  intro m hm
  rcases List.mem_map.mp hm with ⟨x, _, rfl⟩
  rfl

theorem closeAll_length (ws : List InfoWindow) : (closeAll ws).length = ws.length := by
  simp [closeAll]

theorem closeAll_isOpen (ws : List InfoWindow) : ∀ w ∈ closeAll ws, w.isOpen = false := by
  intro w hw
  rcases List.mem_map.mp hw with ⟨x, _, rfl⟩
  rfl

theorem calculateCenterCoordinates_nil : calculateCenterCoordinates [] = none := rfl

/-- After `unhighlightMarker`, nothing is highlighted — on every path. -/
theorem unhighlightMarker_highlighted (s : MapState) :
    (unhighlightMarker s).highlightedMarkerId = none := by
  unfold unhighlightMarker
  cases hh : s.highlightedMarkerId with
  | none => exact hh
  | some id =>
    dsimp only
    cases hg : mapGet s.markerIndexMap id
    · rfl
    · dsimp only
      split
      · rfl
      · split <;> rfl

/-- With the SDK ready, the rebuild returns the previous session's markers,
doubly detached (once by the cleanup, once by the effect body). -/
theorem rebuildSession_old_markers (tours : List TourItem) (s : MapState)
    (h : s.sdkReady = true) :
    (rebuildSession tours s).2.1 = detachAll (detachAll s.markers) := by
  simp [rebuildSession, rebuildEffect, cleanupEffect, h]

/-- With the SDK ready, the rebuild returns the previous session's info
windows, doubly closed. -/
theorem rebuildSession_old_infoWindows (tours : List TourItem) (s : MapState)
    (h : s.sdkReady = true) :
    (rebuildSession tours s).2.2 = closeAll (closeAll s.infoWindows) := by
  simp [rebuildSession, rebuildEffect, cleanupEffect, h]

/-! ### Claim C8: full teardown on rebuild -/

/-- Claim C8: every rebuild with the SDK ready detaches all markers of the
previous session and closes all its info windows, and after a rebuild with
the empty entity list the marker registry, icon cache, marker and
info-window arrays are empty and nothing is highlighted. -/
theorem claim_C8_teardown :
    (∀ tours : List TourItem, ∀ s : MapState, s.sdkReady = true →
      (rebuildSession tours s).2.1.length = s.markers.length ∧
      (∀ m ∈ (rebuildSession tours s).2.1, m.onMap = false) ∧
      (rebuildSession tours s).2.2.length = s.infoWindows.length ∧
      (∀ w ∈ (rebuildSession tours s).2.2, w.isOpen = false)) ∧
    (∀ s : MapState, s.sdkReady = true →
      (rebuildSession [] s).1.markers = [] ∧
      (rebuildSession [] s).1.infoWindows = [] ∧
      (rebuildSession [] s).1.markerIndexMap = [] ∧
      (rebuildSession [] s).1.originalIcons = [] ∧
      (rebuildSession [] s).1.highlightedMarkerId = none) := by
  constructor
  · intro tours s h
    rw [rebuildSession_old_markers tours s h, rebuildSession_old_infoWindows tours s h]
    exact ⟨by rw [detachAll_length, detachAll_length], detachAll_onMap _,
      by rw [closeAll_length, closeAll_length], closeAll_isOpen _⟩
  · intro s h
    refine ⟨?_, ?_, ?_, ?_, ?_⟩ <;>
      simp [rebuildSession, rebuildEffect, cleanupEffect, viewportAdjust,
        calculateCenterCoordinates_nil, h]

/-- Claim C8 witness: a concrete non-empty session followed by
`rebuild([])`. -/
theorem claim_C8_witness :
    ((rebuildSession [] (rebuildSession [demoTourA, demoTourB] (initState true)).1).1.markers
        = [] ∧
      (rebuildSession [] (rebuildSession [demoTourA, demoTourB] (initState true)).1).1.markerIndexMap
        = [] ∧
      (rebuildSession [] (rebuildSession [demoTourA, demoTourB] (initState true)).1).1.highlightedMarkerId
        = none) ∧
    (rebuildSession [] (rebuildSession [demoTourA, demoTourB] (initState true)).1).2.1.length
      = (rebuildSession [demoTourA, demoTourB] (initState true)).1.markers.length := by
  have h2 := claim_C8_teardown.2 (rebuildSession [demoTourA, demoTourB] (initState true)).1
    (by decide)
  have h1 := claim_C8_teardown.1 [] (rebuildSession [demoTourA, demoTourB] (initState true)).1
    (by decide)
  exact ⟨⟨h2.1, h2.2.2.1, h2.2.2.2.2⟩, h1.1⟩

/-! ### Claim C9: missing API credential -/

/-- Claim C9 counterexample: with the credential absent and a fresh state,
the `NaverMap` engine's script effect does not request the SDK and logs a
console error, yet the component still renders the plain map container —
there is no visible configuration error state. -/
theorem claim_C9_counterexample :
    naverMapRenderMapArea (naverMapLoadEffect none false initScriptLoadState) =
      MapAreaView.mapContainer ∧
    (naverMapLoadEffect none false initScriptLoadState).scriptRequested = false ∧
    (naverMapLoadEffect none false initScriptLoadState).consoleErrors ≠ [] :=
  ⟨rfl, by decide, by decide⟩

/-- Claim C9 (amended): when the credential is absent, the multi-marker
`NaverMap` engine only logs a console error and skips the SDK load — its
map-area render is the plain container in every state, never an error view.
The visible configuration error state exists only in the sibling
single-marker `DetailMap` component. -/
theorem claim_C9_amended :
    (∀ s : ScriptLoadState, ∀ naverPresent : Bool, s.scriptLoadedRef = false →
      (naverMapLoadEffect none naverPresent s).scriptRequested = s.scriptRequested ∧
      (naverMapLoadEffect none naverPresent s).isScriptLoaded = s.isScriptLoaded ∧
      (naverMapLoadEffect none naverPresent s).consoleErrors =
        s.consoleErrors ++ ["NEXT_PUBLIC_NAVER_MAP_CLIENT_ID 환경변수가 설정되지 않았습니다."]) ∧
    (∀ s : ScriptLoadState, naverMapRenderMapArea s = MapAreaView.mapContainer) ∧
    (∀ s : DetailMapState, ∀ naverPresent : Bool, s.scriptLoadedRef = false →
      detailMapRenderMapArea (detailMapLoadEffect none naverPresent s) =
        MapAreaView.errorBox "지도 API 설정이 필요합니다.") := by
  refine ⟨?_, fun _ => rfl, ?_⟩
  · intro s naverPresent h
    refine ⟨?_, ?_, ?_⟩ <;> simp [naverMapLoadEffect, envFalsy, h]
  · intro s naverPresent h
    simp [detailMapLoadEffect, detailMapRenderMapArea, envFalsy, h]

/-- Claim C9 amended-theorem witness at the fresh states. -/
theorem claim_C9_witness :
    (naverMapLoadEffect none true initScriptLoadState).consoleErrors =
      ["NEXT_PUBLIC_NAVER_MAP_CLIENT_ID 환경변수가 설정되지 않았습니다."] ∧
    detailMapRenderMapArea (detailMapLoadEffect none true initDetailMapState) =
      MapAreaView.errorBox "지도 API 설정이 필요합니다." :=
  ⟨(claim_C9_amended.1 initScriptLoadState true rfl).2.2,
   claim_C9_amended.2.2 initDetailMapState true rfl⟩

/-! ### Claim C6: gating of the command surface -/

/-- Claim C6 counterexample: in a session built from the empty entity list
(map constructed, zero markers) with the new `tours` prop `[demoTourA]`,
the id `"a1"` matches no marker — yet `moveToMarker "a1"` is *not* a no-op:
it recenters the map to the entity's position, because the command consults
the entity list rather than the marker registry. -/
theorem claim_C6_counterexample :
    (rebuildSession [] (initState true)).1.markers = [] ∧
    mapGet (rebuildSession [] (initState true)).1.markerIndexMap "a1" = none ∧
    moveToMarker [demoTourA] "a1" (rebuildSession [] (initState true)).1 ≠
      (rebuildSession [] (initState true)).1 ∧
    (moveToMarker [demoTourA] "a1" (rebuildSession [] (initState true)).1).mapInstance =
      some { center := { lat := some (Rat.divInt 75 2), lng := some (Rat.divInt 253 2) }
             zoom := 10 } :=
  ⟨by decide, by decide, by decide, by decide⟩

/-- Claim C6 (amended): every command is total and is a silent no-op under
its own guards — `moveToMarker` when the map is not constructed, when the
id matches no entity of the current list, or when the matched entity's
coordinates are unresolvable (but it does recenter when the id resolves in
the entity list even if no marker exists for it — see the counterexample);
`setCenter` when the map is not constructed; `highlightMarker` when the id
has no registered marker, when there are no markers, or when the SDK flag
is false; `unhighlightMarker` when nothing is highlighted — in particular
a second consecutive `unhighlightMarker` is always a no-op. -/
theorem claim_C6_amended :
    (∀ tours : List TourItem, ∀ id : String, ∀ s : MapState,
      s.mapInstance = none → moveToMarker tours id s = s) ∧
    (∀ tours : List TourItem, ∀ id : String, ∀ s : MapState,
      (∀ t ∈ tours, t.contentid ≠ id) → moveToMarker tours id s = s) ∧
    (∀ tours : List TourItem, ∀ id : String, ∀ s : MapState, ∀ t : TourItem,
      tours.find? (fun t => t.contentid = id) = some t → getTourCoordinates t = none →
      moveToMarker tours id s = s) ∧
    (∀ lng lat : JsNum, ∀ s : MapState,
      s.mapInstance = none → setCenterCmd lng lat s = s) ∧
    (∀ tours : List TourItem, ∀ id : String, ∀ s : MapState,
      mapGet s.markerIndexMap id = none → highlightMarker tours id s = s) ∧
    (∀ tours : List TourItem, ∀ id : String, ∀ s : MapState,
      s.markers = [] → highlightMarker tours id s = s) ∧
    (∀ tours : List TourItem, ∀ id : String, ∀ s : MapState,
      s.sdkReady = false → highlightMarker tours id s = s) ∧
    (∀ s : MapState, s.highlightedMarkerId = none → unhighlightMarker s = s) ∧
    (∀ s : MapState, unhighlightMarker (unhighlightMarker s) = unhighlightMarker s) := by
  have hunhl : ∀ s : MapState, s.highlightedMarkerId = none → unhighlightMarker s = s := by
    intro s h
    unfold unhighlightMarker
    rw [h]
  refine ⟨?_, ?_, ?_, ?_, ?_, ?_, ?_, hunhl, ?_⟩
  · intro tours id s h
    unfold moveToMarker
    cases hf : tours.find? (fun t => t.contentid = id)
    · rfl
    · dsimp only
      rw [h]
  · intro tours id s h
    unfold moveToMarker
    rw [List.find?_eq_none.mpr (by simpa using h)]
  · intro tours id s t hf hc
    unfold moveToMarker
    rw [hf]
    dsimp only
    cases hm : s.mapInstance
    · rfl
    · dsimp only
      rw [hc]
  · intro lng lat s h
    unfold setCenterCmd
    rw [h]
  · intro tours id s h
    unfold highlightMarker
    rw [h]
  · intro tours id s h
    unfold highlightMarker
    cases hg : mapGet s.markerIndexMap id
    · rfl
    · dsimp only
      rw [h]
      rfl
  · intro tours id s h
    unfold highlightMarker
    cases hg : mapGet s.markerIndexMap id
    · rfl
    · dsimp only
      split
      · rfl
      · cases hf : tours.find? (fun t => t.contentid = id)
        · rfl
        · dsimp only
          rw [h]
          rfl
  · intro s
    exact hunhl _ (unhighlightMarker_highlighted s)

/-- Claim C6 amended-theorem witness at concrete inputs. -/
theorem claim_C6_witness :
    moveToMarker [demoTourA] "nonexistent-id" (rebuildSession [] (initState true)).1 =
      (rebuildSession [] (initState true)).1 ∧
    moveToMarker [demoTourA] "a1" (initState true) = initState true ∧
    highlightMarker [demoTourA] "a1" (rebuildSession [] (initState true)).1 =
      (rebuildSession [] (initState true)).1 ∧
    unhighlightMarker
        (unhighlightMarker (rebuildSession [demoTourA] (initState true)).1) =
      unhighlightMarker (rebuildSession [demoTourA] (initState true)).1 := by
  refine ⟨claim_C6_amended.2.1 [demoTourA] "nonexistent-id" _ ?_,
    claim_C6_amended.1 [demoTourA] "a1" (initState true) rfl,
    claim_C6_amended.2.2.2.2.1 [demoTourA] "a1" _ (by decide),
    claim_C6_amended.2.2.2.2.2.2.2.2 (rebuildSession [demoTourA] (initState true)).1⟩
  intro t ht
  have : t = demoTourA := by simpa using ht
  subst this
  decide

/-! ### Lemmas about the viewport computation -/

theorem foldl_jmin2_map_some (q : ℚ) (l : List ℚ) :
    (l.map some).foldl jmin2 (some q) = some (l.foldl min q) := by
  induction l generalizing q with
  | nil => rfl
  | cons x xs ih => simp [jmin2, qMin_eq, ih]

theorem foldl_jmax2_map_some (q : ℚ) (l : List ℚ) :
    (l.map some).foldl jmax2 (some q) = some (l.foldl max q) := by
  induction l generalizing q with
  | nil => rfl
  | cons x xs ih => simp [jmax2, qMax_eq, ih]

theorem jminList_map_some (q : ℚ) (l : List ℚ) :
    jminList (some q :: l.map some) = some (listMinQ q l) := by
  simp [jminList, listMinQ, foldl_jmin2_map_some]

theorem jmaxList_map_some (q : ℚ) (l : List ℚ) :
    jmaxList (some q :: l.map some) = some (listMaxQ q l) := by
  simp [jmaxList, listMaxQ, foldl_jmax2_map_some]

theorem map_realCoord_latitude (l : List (ℚ × ℚ)) :
    (l.map realCoord).map Coordinates.latitude = (l.map Prod.snd).map some := by
  induction l with
  | nil => rfl
  | cons x xs ih => simp [realCoord, ih]

theorem map_realCoord_longitude (l : List (ℚ × ℚ)) :
    (l.map realCoord).map Coordinates.longitude = (l.map Prod.fst).map some := by
  induction l with
  | nil => rfl
  | cons x xs ih => simp [realCoord, ih]

/-- The span step table of the effect, written over the Boolean `jlt`
comparisons on `Rat.divInt` constants, equals `stepZoom`. -/
theorem zoom_table_eq (d : ℚ) :
    (if jlt (some d) (Rat.divInt 1 100) then (15 : Int)
     else if jlt (some d) (Rat.divInt 5 100) then 13
     else if jlt (some d) (Rat.divInt 1 10) then 12
     else if jlt (some d) (Rat.divInt 1 2) then 10
     else 8) = stepZoom d := by
  have h1 : (Rat.divInt 1 100 : ℚ) = 1 / 100 := by norm_num [Rat.divInt_eq_div]
  have h2 : (Rat.divInt 5 100 : ℚ) = 5 / 100 := by norm_num [Rat.divInt_eq_div]
  have h3 : (Rat.divInt 1 10 : ℚ) = 1 / 10 := by norm_num [Rat.divInt_eq_div]
  have h4 : (Rat.divInt 1 2 : ℚ) = 1 / 2 := by norm_num [Rat.divInt_eq_div]
  simp [jlt, stepZoom, h1, h2, h3, h4]

theorem addTourMarker_mapInstance (st : MapState) (t : TourItem) :
    (addTourMarker st t).mapInstance = st.mapInstance := by
  unfold addTourMarker
  cases h : getTourCoordinates t <;> rfl

theorem foldl_addTourMarker_mapInstance (tours : List TourItem) (st : MapState) :
    (tours.foldl addTourMarker st).mapInstance = st.mapInstance := by
  induction tours generalizing st with
  | nil => rfl
  | cons t ts ih => rw [List.foldl_cons, ih, addTourMarker_mapInstance]

/-- With the SDK ready, the state produced by a rebuild is the viewport
adjustment of the marker-creation fold over the freshly reset session. -/
theorem rebuildSession_fst (tours : List TourItem) (s : MapState) (h : s.sdkReady = true) :
    (rebuildSession tours s).1 =
      viewportAdjust tours (tours.foldl addTourMarker
        { cleanupEffect s with
          markers := ([] : List Marker)
          infoWindows := ([] : List InfoWindow)
          mapInstance := some
            { center :=
                match calculateCenterCoordinates tours with
                | some c => { lat := c.latitude, lng := c.longitude }
                | none => defaultCenter
              zoom := if (calculateCenterCoordinates tours).isSome then 12 else 10 } }) := by
  unfold rebuildSession rebuildEffect
  rw [if_neg (by simp [show (cleanupEffect s).sdkReady = true from h])]

theorem viewportAdjust_of_not_multi (tours : List TourItem) (st : MapState)
    (h : ¬ 1 < tours.length) : viewportAdjust tours st = st := by
  unfold viewportAdjust
  rw [if_neg h]

theorem viewportAdjust_of_empty (tours : List TourItem) (st : MapState)
    (h : tours.filterMap getTourCoordinates = []) : viewportAdjust tours st = st := by
  unfold viewportAdjust
  split
  · dsimp only
    rw [h]
    rfl
  · rfl

/-- The viewport adjustment with at least one resolvable, `NaN`-free
position and more than one tour: the final map instance has the
bounding-box midpoint as center and the step-table zoom of the span. -/
theorem viewportAdjust_multi (tours : List TourItem) (st : MapState) (p : ℚ × ℚ)
    (ps : List (ℚ × ℚ))
    (hv : tours.filterMap getTourCoordinates = (p :: ps).map realCoord)
    (hlen : 1 < tours.length) (hm : st.mapInstance.isSome = true) :
    (viewportAdjust tours st).mapInstance =
      some { center := { lat := some (bboxMidLat p ps), lng := some (bboxMidLng p ps) }
             zoom := stepZoom (bboxSpan p ps) } := by
  unfold viewportAdjust
  rw [if_pos hlen]
  dsimp only
  rw [hv, if_pos (by simp)]
  rw [show ((p :: ps).map realCoord).map Coordinates.latitude =
      some p.2 :: (ps.map Prod.snd).map some by
    rw [map_realCoord_latitude]; rfl]
  rw [show ((p :: ps).map realCoord).map Coordinates.longitude =
      some p.1 :: (ps.map Prod.fst).map some by
    rw [map_realCoord_longitude]; rfl]
  rw [jminList_map_some, jmaxList_map_some, jminList_map_some, jmaxList_map_some]
  simp only [jadd, jdiv, jsub, jmax2, Option.map_some', qAdd_eq, qDiv_eq, qSub_eq, qMax_eq]
  rw [zoom_table_eq]
  obtain ⟨m, hm⟩ := Option.isSome_iff_exists.mp hm
  unfold setMapCenter
  rw [hm]
  unfold setMapZoom
  dsimp only
  rfl

/-- `calculateCenterCoordinates` returns `null` when no tour has resolvable
coordinates. -/
theorem calculateCenter_of_empty (tours : List TourItem)
    (h : tours.filterMap getTourCoordinates = []) :
    calculateCenterCoordinates tours = none := by
  unfold calculateCenterCoordinates
  split
  · rfl
  · dsimp only
    rw [filter_map_eq_filterMap, h]
    rfl

/-- `calculateCenterCoordinates` of a single resolvable position is that
position. -/
theorem calculateCenter_single (tours : List TourItem) (p : ℚ × ℚ)
    (hv : tours.filterMap getTourCoordinates = [realCoord p]) :
    calculateCenterCoordinates tours = some (realCoord p) := by
  have hne : tours.length ≠ 0 := by
    intro hlen
    rw [List.length_eq_zero.mp hlen] at hv
    simp at hv
  unfold calculateCenterCoordinates
  rw [if_neg hne]
  dsimp only
  rw [filter_map_eq_filterMap, hv]
  simp [jadd, jdivNat, qAdd_eq, qDiv_eq, realCoord]

/-! ### Claim C3: the final center for multiple positions -/

/-- Claim C3 counterexample: for the three resolvable positions
`(126,37), (126,37), (128,38)` the final map center is the bounding-box
midpoint `(127, 37.5)`, while the arithmetic mean of the longitudes is
`380/3 ≠ 127` — the claim that the map is centered on the arithmetic mean
fails. -/
theorem claim_C3_counterexample :
    ((rebuildSession [demoTourP, demoTourQ, demoTourR] (initState true)).1.mapInstance.map
        NaverMapInst.center) =
      some { lat := some (Rat.divInt 75 2), lng := some 127 } ∧
    (calculateCenterCoordinates [demoTourP, demoTourQ, demoTourR]).map Coordinates.longitude =
      some (some (Rat.divInt 380 3)) ∧
    (Rat.divInt 380 3 : ℚ) ≠ 127 :=
  ⟨by decide, by decide, by decide⟩

/-- Claim C3 (amended): with two or more entities and at least one
resolvable, `NaN`-free position, the map is *created* at the arithmetic
mean but its center is immediately overridden, so the final center is the
bounding-box midpoint of the resolvable positions (with the step-table
zoom).  For the spec's two-point example `{126,37}, {128,38}` the midpoint
and the mean coincide and the final center is `{127, 37.5}` with zoom 8. -/
theorem claim_C3_amended :
    (∀ tours : List TourItem, ∀ s : MapState, ∀ p : ℚ × ℚ, ∀ ps : List (ℚ × ℚ),
      s.sdkReady = true → 1 < tours.length →
      tours.filterMap getTourCoordinates = (p :: ps).map realCoord →
      (rebuildSession tours s).1.mapInstance =
        some { center := { lat := some (bboxMidLat p ps), lng := some (bboxMidLng p ps) }
               zoom := stepZoom (bboxSpan p ps) }) ∧
    (rebuildSession [demoTourP, demoTourR] (initState true)).1.mapInstance =
      some { center := { lat := some (75 / 2), lng := some 127 }, zoom := 8 } ∧
    calculateCenterCoordinates [demoTourP, demoTourR] =
      some { longitude := some 127, latitude := some (75 / 2) } := by
  refine ⟨?_, ?_, ?_⟩
  · intro tours s p ps h hlen hv
    rw [rebuildSession_fst tours s h]
    exact viewportAdjust_multi tours _ p ps hv hlen
      (by rw [foldl_addTourMarker_mapInstance]; rfl)
  · have hc : (rebuildSession [demoTourP, demoTourR] (initState true)).1.mapInstance =
        some { center := { lat := some (Rat.divInt 75 2), lng := some 127 }, zoom := 8 } := by
      decide
    rw [hc]
    simp only [Option.some.injEq, NaverMapInst.mk.injEq, LatLng.mk.injEq]
    norm_num [Rat.divInt_eq_div]
  · have hc : calculateCenterCoordinates [demoTourP, demoTourR] =
        some { longitude := some 127, latitude := some (Rat.divInt 75 2) } := by decide
    rw [hc]
    simp only [Option.some.injEq, Coordinates.mk.injEq]
    norm_num [Rat.divInt_eq_div]

/-- Claim C3 amended-theorem witness at the concrete two-point session. -/
theorem claim_C3_witness :
    (rebuildSession [demoTourP, demoTourR] (initState true)).1.mapInstance =
      some { center := { lat := some (bboxMidLat (126, 37) [(128, 38)])
                         lng := some (bboxMidLng (126, 37) [(128, 38)]) }
             zoom := stepZoom (bboxSpan (126, 37) [(128, 38)]) } :=
  claim_C3_amended.1 [demoTourP, demoTourR] (initState true) (126, 37) [(128, 38)]
    rfl (by decide) (by decide)

/-! ### Claim C5: the viewport fitter's three cases -/

/-- Claim C5: with the SDK ready — no resolvable position yields the fixed
fallback center (Seoul city hall) at the wide zoom 10; exactly one
resolvable (`NaN`-free) position yields that point as center with a
close-in zoom (12, or 15 when more than one entity is present); two or more
resolvable positions yield the step-table zoom of the larger coordinate
span (`< 0.01 → 15`, `< 0.05 → 13`, `< 0.1 → 12`, `< 0.5 → 10`, else 8). -/
theorem claim_C5_viewport :
    (∀ tours : List TourItem, ∀ s : MapState, s.sdkReady = true →
      tours.filterMap getTourCoordinates = [] →
      (rebuildSession tours s).1.mapInstance =
        some { center := defaultCenter, zoom := 10 }) ∧
    (∀ tours : List TourItem, ∀ s : MapState, ∀ p : ℚ × ℚ, s.sdkReady = true →
      tours.filterMap getTourCoordinates = [realCoord p] →
      ∃ z : Int, (rebuildSession tours s).1.mapInstance =
        some { center := { lat := some p.2, lng := some p.1 }, zoom := z } ∧
        (z = 12 ∨ z = 15)) ∧
    (∀ tours : List TourItem, ∀ s : MapState, ∀ p : ℚ × ℚ, ∀ ps : List (ℚ × ℚ),
      s.sdkReady = true → tours.filterMap getTourCoordinates = (p :: ps).map realCoord →
      0 < ps.length →
      ∃ c : LatLng, (rebuildSession tours s).1.mapInstance =
        some { center := c, zoom := stepZoom (bboxSpan p ps) }) := by
  refine ⟨?_, ?_, ?_⟩
  · intro tours s h hv
    rw [rebuildSession_fst tours s h, viewportAdjust_of_empty _ _ hv,
      foldl_addTourMarker_mapInstance]
    simp [calculateCenter_of_empty tours hv]
  · intro tours s p h hv
    by_cases hlen : 1 < tours.length
    · refine ⟨15, ?_, Or.inr rfl⟩
      rw [rebuildSession_fst tours s h]
      rw [viewportAdjust_multi tours _ p [] (by simpa using hv) hlen
        (by rw [foldl_addTourMarker_mapInstance]; rfl)]
      have hlat : bboxMidLat p [] = p.2 := by
        simp [bboxMidLat, listMinQ, listMaxQ]
      have hlng : bboxMidLng p [] = p.1 := by
        simp [bboxMidLng, listMinQ, listMaxQ]
      have hspan : bboxSpan p [] = 0 := by
        simp [bboxSpan, listMinQ, listMaxQ]
      rw [hlat, hlng, hspan]
      norm_num [stepZoom]
    · refine ⟨12, ?_, Or.inl rfl⟩
      rw [rebuildSession_fst tours s h, viewportAdjust_of_not_multi _ _ hlen,
        foldl_addTourMarker_mapInstance]
      simp [calculateCenter_single tours p hv, realCoord]
  · intro tours s p ps h hv hps
    have hlen : 1 < tours.length := by
      have hle := List.length_filterMap_le getTourCoordinates tours
      rw [hv] at hle
      simp at hle
      omega
    refine ⟨{ lat := some (bboxMidLat p ps), lng := some (bboxMidLng p ps) }, ?_⟩
    rw [rebuildSession_fst tours s h]
    exact viewportAdjust_multi tours _ p ps hv hlen
      (by rw [foldl_addTourMarker_mapInstance]; rfl)

/-- Claim C5 witness at concrete inputs for all three cases. -/
theorem claim_C5_witness :
    (rebuildSession ([] : List TourItem) (initState true)).1.mapInstance =
      some { center := defaultCenter, zoom := 10 } ∧
    (∃ z : Int, (rebuildSession [demoTourA] (initState true)).1.mapInstance =
      some { center := { lat := some (Rat.divInt 75 2), lng := some (Rat.divInt 253 2) }
             zoom := z } ∧ (z = 12 ∨ z = 15)) ∧
    (∃ c : LatLng, (rebuildSession [demoTourP, demoTourR] (initState true)).1.mapInstance =
      some { center := c, zoom := stepZoom (bboxSpan (126, 37) [(128, 38)]) }) :=
  ⟨claim_C5_viewport.1 [] (initState true) rfl rfl,
   claim_C5_viewport.2.1 [demoTourA] (initState true) (Rat.divInt 253 2, Rat.divInt 75 2)
     rfl (by decide),
   claim_C5_viewport.2.2 [demoTourP, demoTourR] (initState true) (126, 37) [(128, 38)]
     rfl (by decide) (by decide)⟩

/-! ### Association-list (`Map`) lemmas -/

theorem mapGet_of_any_eq_false {α : Type} (m : List (String × α)) (k : String)
    (h : m.any (fun p => p.1 = k) = false) : mapGet m k = none := by
  unfold mapGet
  rw [List.find?_eq_none.mpr]
  · rfl
  · intro p hp
    have := List.any_eq_false.mp h p hp
    simpa using this

theorem mapGet_append_single_self {α : Type} (m : List (String × α)) (k : String) (v : α) :
    m.any (fun p => p.1 = k) = false → mapGet (m ++ [(k, v)]) k = some v := by
  induction m with
  | nil => simp [mapGet]
  | cons p m' ih =>
    intro h
    rw [List.any_cons] at h
    have hp : (p.1 = k) = False := by
      simpa using (Bool.or_eq_false_iff.mp h).1
    have hm' := (Bool.or_eq_false_iff.mp h).2
    unfold mapGet
    rw [List.cons_append, List.find?_cons_of_neg _ (by simpa using hp)]
    exact ih hm'

theorem mapGet_append_single_ne {α : Type} (m : List (String × α)) (k k' : String) (v : α)
    (h : k' ≠ k) : mapGet (m ++ [(k, v)]) k' = mapGet m k' := by
  induction m with
  | nil =>
    unfold mapGet
    rw [List.nil_append, List.find?_cons_of_neg _
      (by simp only [decide_eq_true_eq]; exact fun hh => h hh.symm)]
  | cons p m' ih =>
    unfold mapGet
    rw [List.cons_append]
    by_cases hp : p.1 = k'
    · rw [List.find?_cons_of_pos _ (by simpa using hp),
        List.find?_cons_of_pos _ (by simpa using hp)]
    · rw [List.find?_cons_of_neg _ (by simpa using hp),
        List.find?_cons_of_neg _ (by simpa using hp)]
      exact ih

theorem mapGet_replace_self {α : Type} (m : List (String × α)) (k : String) (v : α)
    (h : m.any (fun p => p.1 = k) = true) :
    mapGet (m.map (fun p => if p.1 = k then (k, v) else p)) k = some v := by
  induction m with
  | nil => simp at h
  | cons p m' ih =>
    rw [List.map_cons]
    by_cases hp : p.1 = k
    · unfold mapGet
      rw [if_pos hp, List.find?_cons_of_pos _ (by simp)]
      rfl
    · rw [List.any_cons] at h
      have hm' : m'.any (fun p => p.1 = k) = true := by
        rcases Bool.or_eq_true_iff.mp h with h1 | h1
        · exact absurd (by simpa using h1) hp
        · exact h1
      unfold mapGet
      rw [if_neg hp, List.find?_cons_of_neg _ (by simpa using hp)]
      exact ih hm'

theorem mapGet_replace_ne {α : Type} (m : List (String × α)) (k k' : String) (v : α)
    (h : k' ≠ k) :
    mapGet (m.map (fun p => if p.1 = k then (k, v) else p)) k' = mapGet m k' := by
  induction m with
  | nil => rfl
  | cons p m' ih =>
    rw [List.map_cons]
    by_cases hp : p.1 = k
    · unfold mapGet
      rw [if_pos hp,
        List.find?_cons_of_neg _
          (by simp only [decide_eq_true_eq]; exact fun hh => h hh.symm),
        List.find?_cons_of_neg _
          (by simp only [decide_eq_true_eq]; rw [hp]; exact fun hh => h hh.symm)]
      exact ih
    · unfold mapGet
      rw [if_neg hp]
      by_cases hk' : p.1 = k'
      · rw [List.find?_cons_of_pos _ (by simpa using hk'),
          List.find?_cons_of_pos _ (by simpa using hk')]
      · rw [List.find?_cons_of_neg _ (by simpa using hk'),
          List.find?_cons_of_neg _ (by simpa using hk')]
        exact ih

theorem mapGet_mapSet_self {α : Type} (m : List (String × α)) (k : String) (v : α) :
    mapGet (mapSet m k v) k = some v := by
  unfold mapSet
  cases h : m.any (fun p => p.1 = k)
  · rw [if_neg (by simp)]
    exact mapGet_append_single_self m k v h
  · rw [if_pos rfl]
    exact mapGet_replace_self m k v h

theorem mapGet_mapSet_ne {α : Type} (m : List (String × α)) (k k' : String) (v : α)
    (h : k' ≠ k) : mapGet (mapSet m k v) k' = mapGet m k' := by
  unfold mapSet
  cases hh : m.any (fun p => p.1 = k)
  · rw [if_neg (by simp)]
    exact mapGet_append_single_ne m k k' v h
  · rw [if_pos rfl]
    exact mapGet_replace_ne m k k' v h

theorem mapGet_mem {α : Type} (m : List (String × α)) (k : String) (v : α)
    (h : mapGet m k = some v) : (k, v) ∈ m := by
  unfold mapGet at h
  cases hf : m.find? (fun p => p.1 = k) with
  | none => rw [hf] at h; simp at h
  | some p =>
    rw [hf] at h
    have hk : p.1 = k := by simpa using List.find?_some hf
    have hv : p.2 = v := by simpa using h
    have := List.mem_of_find?_eq_some hf
    rwa [show (k, v) = p from by rw [← hk, ← hv]]

theorem mem_mapSet {α : Type} (m : List (String × α)) (k : String) (v : α) :
    ∀ q ∈ mapSet m k v, q ∈ m ∨ q = (k, v) := by
  intro q hq
  unfold mapSet at hq
  by_cases h : m.any (fun p => p.1 = k) = true
  · rw [if_pos h] at hq
    rcases List.mem_map.mp hq with ⟨p, hp, hpq⟩
    by_cases hpk : p.1 = k
    · right
      rw [← hpq, if_pos hpk]
    · left
      rwa [← hpq, if_neg hpk]
  · rw [if_neg h] at hq
    rcases List.mem_append.mp hq with h1 | h1
    · exact Or.inl h1
    · exact Or.inr (by simpa using h1)

/-! ### `updateAt` lemmas -/

theorem updateAt_length {α : Type} (l : List α) (i : Nat) (f : α → α) :
    (updateAt l i f).length = l.length := by
  unfold updateAt
  cases h : l.get? i
  · rfl
  · simp

theorem updateAt_get?_self {α : Type} (l : List α) (i : Nat) (f : α → α) :
    (updateAt l i f).get? i = (l.get? i).map f := by
  unfold updateAt
  cases h : l.get? i with
  | none => rw [h]; rfl
  | some a => rw [List.get?_set_eq, h]; rfl

theorem updateAt_get?_ne {α : Type} (l : List α) (i j : Nat) (f : α → α) (h : i ≠ j) :
    (updateAt l i f).get? j = l.get? j := by
  unfold updateAt
  cases hh : l.get? i
  · rfl
  · exact List.get?_set_ne _ _ h

theorem updateAt_nil {α : Type} (i : Nat) (f : α → α) : updateAt ([] : List α) i f = [] := rfl

/-! ### `countP` positional lemmas -/

theorem countP_le_one_of_unique {α : Type} (l : List α) (p : α → Bool) (idx : Nat)
    (h : ∀ j, j ≠ idx → ∀ a, l.get? j = some a → p a = false) : l.countP p ≤ 1 := by
  induction l generalizing idx with
  | nil => simp
  | cons x xs ih =>
    rw [List.countP_cons]
    cases idx with
    | zero =>
      have hxs : xs.countP p = 0 := by
        rw [List.countP_eq_zero]
        intro a ha
        rcases List.mem_iff_get?.mp ha with ⟨j, hj⟩
        exact (by simpa using h (j + 1) (by omega) a (by simpa using hj) : ¬ p a = true)
      rw [hxs]
      cases hpx : p x <;> simp
    | succ n =>
      have hx : p x = false := h 0 (by omega) x rfl
      have := ih n (fun j hj a ha => h (j + 1) (by omega) a (by simpa using ha))
      simpa [hx] using this

theorem countP_eq_one_of_unique {α : Type} (l : List α) (p : α → Bool) (idx : Nat) (a : α)
    (ha : l.get? idx = some a) (hpa : p a = true)
    (h : ∀ j, j ≠ idx → ∀ b, l.get? j = some b → p b = false) : l.countP p = 1 := by
  induction l generalizing idx with
  | nil => simp at ha
  | cons x xs ih =>
    rw [List.countP_cons]
    cases idx with
    | zero =>
      have hax : x = a := by simpa using ha
      subst hax
      have hxs : xs.countP p = 0 := by
        rw [List.countP_eq_zero]
        intro b hb
        rcases List.mem_iff_get?.mp hb with ⟨j, hj⟩
        exact (by simpa using h (j + 1) (by omega) b (by simpa using hj) : ¬ p b = true)
      simp [hxs, hpa]
    | succ n =>
      have hx : p x = false := h 0 (by omega) x rfl
      have := ih n (by simpa using ha)
        (fun j hj b hb => h (j + 1) (by omega) b (by simpa using hb))
      simp [hx, this]

theorem countP_eq_zero_of_all {α : Type} (l : List α) (p : α → Bool)
    (h : ∀ a ∈ l, p a = false) : l.countP p = 0 := by
  rw [List.countP_eq_zero]
  intro a ha
  simp [h a ha]

/-! ### Field stability of the commands -/

theorem moveToMarker_fields (tours : List TourItem) (id : String) (s : MapState) :
    (moveToMarker tours id s).markers = s.markers ∧
    (moveToMarker tours id s).markerIndexMap = s.markerIndexMap ∧
    (moveToMarker tours id s).originalIcons = s.originalIcons ∧
    (moveToMarker tours id s).highlightedMarkerId = s.highlightedMarkerId ∧
    (moveToMarker tours id s).sdkReady = s.sdkReady := by
  unfold moveToMarker
  cases hf : tours.find? (fun t => t.contentid = id) with
  | none => exact ⟨rfl, rfl, rfl, rfl, rfl⟩
  | some tour =>
    dsimp only
    cases hm : s.mapInstance with
    | none => exact ⟨rfl, rfl, rfl, rfl, rfl⟩
    | some m =>
      dsimp only
      cases hc : getTourCoordinates tour with
      | none => exact ⟨rfl, rfl, rfl, rfl, rfl⟩
      | some coords =>
        dsimp only
        cases hj : jsFindIndex (fun t => t.contentid = id) tours with
        | none => exact ⟨rfl, rfl, rfl, rfl, rfl⟩
        | some k =>
          dsimp only
          split <;> exact ⟨rfl, rfl, rfl, rfl, rfl⟩

theorem setCenterCmd_fields (lng lat : JsNum) (s : MapState) :
    (setCenterCmd lng lat s).markers = s.markers ∧
    (setCenterCmd lng lat s).markerIndexMap = s.markerIndexMap ∧
    (setCenterCmd lng lat s).originalIcons = s.originalIcons ∧
    (setCenterCmd lng lat s).highlightedMarkerId = s.highlightedMarkerId ∧
    (setCenterCmd lng lat s).sdkReady = s.sdkReady := by
  unfold setCenterCmd
  split
  all_goals exact ⟨rfl, rfl, rfl, rfl, rfl⟩

/-! ### No-op paths of the highlight machine -/

theorem unhighlightMarker_of_idle (s : MapState) (h : s.highlightedMarkerId = none) :
    unhighlightMarker s = s := by
  unfold unhighlightMarker
  rw [h]

theorem highlightMarker_noop_of_noIndex (tours : List TourItem) (id : String) (s : MapState)
    (h : mapGet s.markerIndexMap id = none) : highlightMarker tours id s = s := by
  unfold highlightMarker
  rw [h]

theorem highlightMarker_noop_of_noMarker (tours : List TourItem) (id : String) (s : MapState)
    (idx : Nat) (hidx : mapGet s.markerIndexMap id = some idx)
    (h : (s.markers.get? idx).isNone = true) : highlightMarker tours id s = s := by
  unfold highlightMarker
  rw [hidx]
  dsimp only
  rw [if_pos h]

theorem highlightMarker_noop_of_noTour (tours : List TourItem) (id : String) (s : MapState)
    (h : tours.find? (fun t => t.contentid = id) = none) : highlightMarker tours id s = s := by
  unfold highlightMarker
  cases hg : mapGet s.markerIndexMap id
  · rfl
  · dsimp only
    split
    · rfl
    · rw [h]

theorem highlightMarker_noop_of_notReady (tours : List TourItem) (id : String) (s : MapState)
    (h : s.sdkReady = false) : highlightMarker tours id s = s := by
  unfold highlightMarker
  cases hg : mapGet s.markerIndexMap id
  · rfl
  · dsimp only
    split
    · rfl
    · cases hf : tours.find? (fun t => t.contentid = id)
      · rfl
      · dsimp only
        rw [h]
        rfl

theorem highlightMarker_noop_of_same (tours : List TourItem) (id : String) (s : MapState)
    (h : s.highlightedMarkerId = some id) : highlightMarker tours id s = s := by
  unfold highlightMarker
  cases hg : mapGet s.markerIndexMap id
  · rfl
  · dsimp only
    split
    · rfl
    · cases hf : tours.find? (fun t => t.contentid = id)
      · rfl
      · dsimp only
        cases hr : s.sdkReady <;> simp [h]

/-! ### The two successful paths of `highlightMarker` -/

theorem highlightMarker_spec_idle (tours : List TourItem) (id : String) (s : MapState)
    (idx : Nat) (t : TourItem)
    (hidx : mapGet s.markerIndexMap id = some idx)
    (hmk : (s.markers.get? idx).isNone = false)
    (hft : tours.find? (fun t => t.contentid = id) = some t)
    (hready : s.sdkReady = true)
    (hidle : s.highlightedMarkerId = none) :
    highlightMarker tours id s =
      { s with
        markers := updateAt s.markers idx
          (fun m => { m with icon := getHighlightedMarkerIconByType t.contenttypeid })
        originalIcons :=
          if (mapGet s.originalIcons id).isSome then s.originalIcons
          else mapSet s.originalIcons id (getMarkerIconByType t.contenttypeid)
        highlightedMarkerId := some id } := by
  unfold highlightMarker
  rw [hidx]
  dsimp only
  rw [if_neg (by rw [hmk]; simp)]
  rw [hft]
  dsimp only
  rw [if_neg (by simp [hready])]
  rw [if_neg (by simp [hidle])]
  rw [hidle]
  dsimp only
  split <;> rfl

theorem highlightMarker_spec_prev (tours : List TourItem) (id : String) (s : MapState)
    (idx : Nat) (t : TourItem) (prev : String) (prevIdx : Nat) (icPrev : MarkerIcon)
    (hidx : mapGet s.markerIndexMap id = some idx)
    (hmk : (s.markers.get? idx).isNone = false)
    (hft : tours.find? (fun t => t.contentid = id) = some t)
    (hready : s.sdkReady = true)
    (hprev : s.highlightedMarkerId = some prev)
    (hne : prev ≠ id)
    (hpidx : mapGet s.markerIndexMap prev = some prevIdx)
    (hpmk : (s.markers.get? prevIdx).isNone = false)
    (hpic : mapGet s.originalIcons prev = some icPrev) :
    highlightMarker tours id s =
      { s with
        markers := updateAt (updateAt s.markers prevIdx (fun m => { m with icon := icPrev }))
          idx (fun m => { m with icon := getHighlightedMarkerIconByType t.contenttypeid })
        originalIcons :=
          if (mapGet s.originalIcons id).isSome then s.originalIcons
          else mapSet s.originalIcons id (getMarkerIconByType t.contenttypeid)
        highlightedMarkerId := some id } := by
  unfold highlightMarker
  rw [hidx]
  dsimp only
  rw [if_neg (by rw [hmk]; simp)]
  rw [hft]
  dsimp only
  rw [if_neg (by simp [hready])]
  rw [if_neg (by simp [hprev, hne])]
  rw [hprev]
  dsimp only
  rw [hpidx]
  dsimp only
  rw [if_neg (show ¬((s.markers.get? prevIdx).isNone = true) by rw [hpmk]; simp)]
  rw [hpic]
  dsimp only
  split <;> rfl

theorem unhighlightMarker_spec (s : MapState) (id : String) (idx : Nat) (ic : MarkerIcon)
    (hh : s.highlightedMarkerId = some id)
    (hidx : mapGet s.markerIndexMap id = some idx)
    (hmk : (s.markers.get? idx).isNone = false)
    (hic : mapGet s.originalIcons id = some ic) :
    unhighlightMarker s =
      { s with markers := updateAt s.markers idx (fun m => { m with icon := ic })
               highlightedMarkerId := none } := by
  unfold unhighlightMarker
  rw [hh]
  dsimp only
  rw [hidx]
  dsimp only
  rw [if_neg (show ¬((s.markers.get? idx).isNone = true) by rw [hmk]; simp)]
  rw [hic]

/-! ### Invariant preservation -/

theorem Inv_initState (ready : Bool) : Inv (initState ready) := by
  refine ⟨?_, ?_, ?_, ?_⟩ <;> simp [initState, MapInjective, mapGet]

theorem Inv_sdkLoaded (s : MapState) (h : Inv s) : Inv { s with sdkReady := true } := by
  obtain ⟨h1, h2, h3, h4⟩ := h
  exact ⟨h1, h2, h3, fun hf => by simp at hf⟩

theorem Inv_moveToMarker (tours : List TourItem) (id : String) (s : MapState) (h : Inv s) :
    Inv (moveToMarker tours id s) := by
  obtain ⟨hm1, hm2, hm3, hm4, hm5⟩ := moveToMarker_fields tours id s
  unfold Inv at h ⊢
  rw [hm1, hm2, hm3, hm4, hm5]
  exact h

theorem Inv_setCenterCmd (lng lat : JsNum) (s : MapState) (h : Inv s) :
    Inv (setCenterCmd lng lat s) := by
  obtain ⟨hm1, hm2, hm3, hm4, hm5⟩ := setCenterCmd_fields lng lat s
  unfold Inv at h ⊢
  rw [hm1, hm2, hm3, hm4, hm5]
  exact h

theorem Inv_unhighlightMarker (s : MapState) (h : Inv s) : Inv (unhighlightMarker s) := by
  obtain ⟨h1, h2, h3, h4⟩ := h
  cases hh : s.highlightedMarkerId with
  | none =>
    rw [unhighlightMarker_of_idle s hh]
    exact ⟨h1, h2, h3, h4⟩
  | some id =>
    rw [hh] at h2
    obtain ⟨idx, hidx, hlt, hcache, hothers⟩ := h2
    obtain ⟨ic, hic⟩ := Option.isSome_iff_exists.mp hcache
    have hmk : (s.markers.get? idx).isNone = false := by
      rw [List.get?_eq_get hlt]
      rfl
    rw [unhighlightMarker_spec s id idx ic hh hidx hmk hic]
    have hicn : isEmphasized ic = false := h1 (id, ic) (mapGet_mem _ _ _ hic)
    refine ⟨h1, ?_, h3, ?_⟩
    · intro m hm
      rcases List.mem_iff_get?.mp hm with ⟨j, hj⟩
      by_cases hji : j = idx
      · subst hji
        rw [updateAt_get?_self] at hj
        cases hmg : s.markers.get? j with
        | none => rw [hmg] at hj; simp at hj
        | some old =>
          rw [hmg] at hj
          have : m = { old with icon := ic } := by simpa using hj.symm
          rw [this]
          exact hicn
      · rw [updateAt_get?_ne _ _ _ _ (fun he => hji he.symm)] at hj
        exact hothers j hji m hj
    · intro hf
      rw [h4 hf, updateAt_nil]

theorem Inv_highlightMarker (tours : List TourItem) (id : String) (s : MapState) (h : Inv s) :
    Inv (highlightMarker tours id s) := by
  obtain ⟨h1, h2, h3, h4⟩ := h
  cases hg : mapGet s.markerIndexMap id with
  | none =>
    rw [highlightMarker_noop_of_noIndex tours id s hg]
    exact ⟨h1, h2, h3, h4⟩
  | some idx =>
  cases hmk : (s.markers.get? idx).isNone with
  | true =>
    rw [highlightMarker_noop_of_noMarker tours id s idx hg hmk]
    exact ⟨h1, h2, h3, h4⟩
  | false =>
  cases hft : tours.find? (fun t => t.contentid = id) with
  | none =>
    rw [highlightMarker_noop_of_noTour tours id s hft]
    exact ⟨h1, h2, h3, h4⟩
  | some t =>
  cases hready : s.sdkReady with
  | false =>
    rw [highlightMarker_noop_of_notReady tours id s hready]
    exact ⟨h1, h2, h3, h4⟩
  | true =>
  have hlt : idx < s.markers.length := by
    cases hq : s.markers.get? idx with
    | none => rw [hq] at hmk; simp at hmk
    | some a => exact (List.get?_eq_some.mp hq).1
  have hcache2 : ∀ ics : List (String × MarkerIcon),
      (∀ q ∈ ics, isEmphasized q.2 = false) →
      ∀ q ∈ (if (mapGet ics id).isSome then ics
             else mapSet ics id (getMarkerIconByType t.contenttypeid)),
        isEmphasized q.2 = false := by
    intro ics hics q hq
    by_cases hs : (mapGet ics id).isSome = true
    · rw [if_pos hs] at hq
      exact hics q hq
    · rw [if_neg hs] at hq
      rcases mem_mapSet ics id _ q hq with hold | hnew
      · exact hics q hold
      · rw [hnew]
        exact isEmphasized_normal _
  have hcacheSome : ∀ ics : List (String × MarkerIcon),
      (mapGet (if (mapGet ics id).isSome then ics
               else mapSet ics id (getMarkerIconByType t.contenttypeid)) id).isSome = true := by
    intro ics
    by_cases hs : (mapGet ics id).isSome = true
    · rw [if_pos hs]
      exact hs
    · rw [if_neg hs, mapGet_mapSet_self]
      rfl
  by_cases hsame : s.highlightedMarkerId = some id
  · rw [highlightMarker_noop_of_same tours id s hsame]
    exact ⟨h1, h2, h3, h4⟩
  · cases hh : s.highlightedMarkerId with
    | none =>
      rw [highlightMarker_spec_idle tours id s idx t hg hmk hft hready hh]
      rw [hh] at h2
      refine ⟨hcache2 s.originalIcons h1, ?_, h3, fun hf => by simp [hready] at hf⟩
      refine ⟨idx, hg, by rw [updateAt_length]; exact hlt, hcacheSome s.originalIcons, ?_⟩
      intro j hj m hm
      rw [updateAt_get?_ne _ _ _ _ (fun he => hj he.symm)] at hm
      exact h2 m (List.mem_iff_get?.mpr ⟨j, hm⟩)
    | some prev =>
      have hprevne : prev ≠ id := fun he => hsame (by rw [hh, he])
      rw [hh] at h2
      obtain ⟨pidx, hpidx, hplt, hpcache, hpothers⟩ := h2
      obtain ⟨icPrev, hpic⟩ := Option.isSome_iff_exists.mp hpcache
      have hpmk : (s.markers.get? pidx).isNone = false := by
        rw [List.get?_eq_get hplt]
        rfl
      have hpicn : isEmphasized icPrev = false := h1 (prev, icPrev) (mapGet_mem _ _ _ hpic)
      rw [highlightMarker_spec_prev tours id s idx t prev pidx icPrev hg hmk hft hready hh
        hprevne hpidx hpmk hpic]
      refine ⟨hcache2 s.originalIcons h1, ?_, h3, fun hf => by simp [hready] at hf⟩
      refine ⟨idx, hg, by rw [updateAt_length, updateAt_length]; exact hlt,
        hcacheSome s.originalIcons, ?_⟩
      intro j hj m hm
      rw [updateAt_get?_ne _ _ _ _ (fun he => hj he.symm)] at hm
      by_cases hjp : j = pidx
      · subst hjp
        rw [updateAt_get?_self] at hm
        cases hmg : s.markers.get? j with
        | none => rw [hmg] at hm; simp at hm
        | some old =>
          rw [hmg] at hm
          have : m = { old with icon := icPrev } := by simpa using hm.symm
          rw [this]
          exact hpicn
      · rw [updateAt_get?_ne _ _ _ _ (fun he => hjp he.symm)] at hm
        exact hpothers j hjp m hm

/-! ### The rebuild establishes the invariant -/

theorem setMapCenter_fields (st : MapState) (c : LatLng) :
    (setMapCenter st c).markerIndexMap = st.markerIndexMap ∧
    (setMapCenter st c).originalIcons = st.originalIcons ∧
    (setMapCenter st c).highlightedMarkerId = st.highlightedMarkerId ∧
    (setMapCenter st c).sdkReady = st.sdkReady := by
  unfold setMapCenter
  split <;> exact ⟨rfl, rfl, rfl, rfl⟩

theorem setMapZoom_fields (st : MapState) (z : Int) :
    (setMapZoom st z).markerIndexMap = st.markerIndexMap ∧
    (setMapZoom st z).originalIcons = st.originalIcons ∧
    (setMapZoom st z).highlightedMarkerId = st.highlightedMarkerId ∧
    (setMapZoom st z).sdkReady = st.sdkReady := by
  unfold setMapZoom
  split <;> exact ⟨rfl, rfl, rfl, rfl⟩

theorem viewportAdjust_fields (tours : List TourItem) (st : MapState) :
    (viewportAdjust tours st).markerIndexMap = st.markerIndexMap ∧
    (viewportAdjust tours st).originalIcons = st.originalIcons ∧
    (viewportAdjust tours st).highlightedMarkerId = st.highlightedMarkerId ∧
    (viewportAdjust tours st).sdkReady = st.sdkReady := by
  unfold viewportAdjust
  split
  · dsimp only
    split
    · obtain ⟨hz1, hz2, hz3, hz4⟩ := setMapZoom_fields (setMapCenter st _) _
      obtain ⟨hc1, hc2, hc3, hc4⟩ := setMapCenter_fields st _
      exact ⟨by rw [hz1, hc1], by rw [hz2, hc2], by rw [hz3, hc3], by rw [hz4, hc4]⟩
    · exact ⟨rfl, rfl, rfl, rfl⟩
  · exact ⟨rfl, rfl, rfl, rfl⟩

theorem addTourMarker_buildInv (st : MapState) (t : TourItem) (h : BuildInv st) :
    BuildInv (addTourMarker st t) := by
  obtain ⟨h1, h2, h3, h4, h5, h6⟩ := h
  unfold addTourMarker
  cases hc : getTourCoordinates t with
  | none => exact ⟨h1, h2, h3, h4, h5, h6⟩
  | some coords =>
    dsimp only
    refine ⟨?_, ?_, ?_, ?_, h5, h6⟩
    · intro q hq
      rcases mem_mapSet _ _ _ q hq with hold | hnew
      · exact h1 q hold
      · rw [hnew]
        exact isEmphasized_normal _
    · intro m hm
      rcases List.mem_append.mp hm with hold | hnew
      · exact h2 m hold
      · rw [List.mem_singleton.mp hnew]
        exact isEmphasized_normal _
    · intro q hq
      rcases mem_mapSet _ _ _ q hq with hold | hnew
      · have := h3 q hold
        simp only [List.length_append, List.length_singleton]
        omega
      · rw [hnew]
        simp only [List.length_append, List.length_singleton]
        omega
    · intro k1 k2 i hk1 hk2
      by_cases e1 : k1 = t.contentid <;> by_cases e2 : k2 = t.contentid
      · rw [e1, e2]
      · rw [e1, mapGet_mapSet_self] at hk1
        rw [mapGet_mapSet_ne _ _ _ _ e2] at hk2
        have hlt := h3 _ (mapGet_mem _ _ _ hk2)
        have hi : i = st.markers.length := by
          have h7 := hk1.symm
          simp only [Option.some.injEq, List.length_append, List.length_singleton] at h7
          omega
        exfalso
        dsimp only at hlt
        omega
      · rw [e2, mapGet_mapSet_self] at hk2
        rw [mapGet_mapSet_ne _ _ _ _ e1] at hk1
        have hlt := h3 _ (mapGet_mem _ _ _ hk1)
        have hi : i = st.markers.length := by
          have h7 := hk2.symm
          simp only [Option.some.injEq, List.length_append, List.length_singleton] at h7
          omega
        exfalso
        dsimp only at hlt
        omega
      · rw [mapGet_mapSet_ne _ _ _ _ e1] at hk1
        rw [mapGet_mapSet_ne _ _ _ _ e2] at hk2
        exact h4 k1 k2 i hk1 hk2

theorem foldl_addTourMarker_buildInv (tours : List TourItem) (st : MapState)
    (h : BuildInv st) : BuildInv (tours.foldl addTourMarker st) := by
  induction tours generalizing st with
  | nil => exact h
  | cons t ts ih => exact ih _ (addTourMarker_buildInv st t h)

theorem Inv_rebuildSession (tours : List TourItem) (s : MapState) (h : Inv s) :
    Inv (rebuildSession tours s).1 := by
  obtain ⟨h1, h2, h3, h4⟩ := h
  cases hready : s.sdkReady with
  | false =>
    have hm : s.markers = [] := h4 hready
    have hfst : (rebuildSession tours s).1 = cleanupEffect s := by
      unfold rebuildSession rebuildEffect
      rw [if_pos (by simp [show (cleanupEffect s).sdkReady = false from hready])]
    rw [hfst]
    unfold cleanupEffect
    refine ⟨by simp, ?_, by simp [MapInjective, mapGet], fun _ => by rw [hm]; rfl⟩
    dsimp only
    rw [hm]
    intro m hm2
    simp [detachAll] at hm2
  | true =>
    rw [rebuildSession_fst tours s hready]
    have hb : BuildInv (tours.foldl addTourMarker
        { cleanupEffect s with
          markers := ([] : List Marker)
          infoWindows := ([] : List InfoWindow)
          mapInstance := some
            { center :=
                match calculateCenterCoordinates tours with
                | some c => { lat := c.latitude, lng := c.longitude }
                | none => defaultCenter
              zoom := if (calculateCenterCoordinates tours).isSome then 12 else 10 } }) := by
      refine foldl_addTourMarker_buildInv tours _ ?_
      refine ⟨by simp [cleanupEffect], by simp, by simp [cleanupEffect]
        , ?_, rfl, hready⟩
      intro k1 k2 i hk1 hk2
      simp [cleanupEffect, mapGet] at hk1
    obtain ⟨hb1, hb2, hb3, hb4, hb5, hb6⟩ := hb
    obtain ⟨hv1, hv2, hv3, hv4⟩ := viewportAdjust_fields tours (tours.foldl addTourMarker _)
    refine ⟨?_, ?_, ?_, ?_⟩
    · rw [hv2]
      exact hb1
    · rw [hv3, hb5]
      intro m hm
      rw [viewportAdjust_markers] at hm
      exact hb2 m hm
    · rw [hv1]
      exact hb4
    · intro hf
      rw [hv4, hb6] at hf
      simp at hf

/-- Every reachable state of a mounted `NaverMap` satisfies the internal
invariant. -/
theorem Reachable_Inv (tours : List TourItem) (s : MapState) (h : Reachable tours s) :
    Inv s := by
  induction h with
  | init tours ready => exact Inv_initState ready
  | sdkLoaded tours s _ ih => exact Inv_sdkLoaded s ih
  | propsChange tours tours' s _ ih => exact ih
  | rebuild tours s _ ih => exact Inv_rebuildSession tours s ih
  | move tours s id _ ih => exact Inv_moveToMarker tours id s ih
  | recenter tours s lng lat _ ih => exact Inv_setCenterCmd lng lat s ih
  | highlight tours s id _ ih => exact Inv_highlightMarker tours id s ih
  | unhighlight tours s _ ih => exact Inv_unhighlightMarker s ih

theorem updateAt_get?_isNone {α : Type} (l : List α) (i j : Nat) (f : α → α) :
    ((updateAt l i f).get? j).isNone = (l.get? j).isNone := by
  by_cases h : i = j
  · subst h
    rw [updateAt_get?_self]
    cases l.get? i <;> rfl
  · rw [updateAt_get?_ne _ _ _ _ h]

/-- Under the invariant and passing guards, `highlightMarker` records the
id as highlighted, keeps the index map, marker count and readiness, caches
an original icon for the id, and preserves other cache entries. -/
theorem highlightMarker_success (tours : List TourItem) (id : String) (s : MapState)
    (idx : Nat) (t : TourItem) (hInv : Inv s)
    (hidx : mapGet s.markerIndexMap id = some idx)
    (hmk : (s.markers.get? idx).isNone = false)
    (hft : tours.find? (fun t => t.contentid = id) = some t)
    (hready : s.sdkReady = true) :
    (highlightMarker tours id s).highlightedMarkerId = some id ∧
    (highlightMarker tours id s).markerIndexMap = s.markerIndexMap ∧
    (∀ j : Nat, ((highlightMarker tours id s).markers.get? j).isNone =
      (s.markers.get? j).isNone) ∧
    (mapGet (highlightMarker tours id s).originalIcons id).isSome = true ∧
    (∀ k : String, ∀ ic : MarkerIcon, k ≠ id → mapGet s.originalIcons k = some ic →
      mapGet (highlightMarker tours id s).originalIcons k = some ic) ∧
    (highlightMarker tours id s).sdkReady = true := by
  obtain ⟨h1, h2, h3, h4⟩ := hInv
  by_cases hsame : s.highlightedMarkerId = some id
  · rw [highlightMarker_noop_of_same tours id s hsame]
    rw [hsame] at h2
    obtain ⟨idx', hidx', hlt', hcache', hothers'⟩ := h2
    exact ⟨hsame, rfl, fun j => rfl, hcache', fun k ic _ hk => hk, hready⟩
  · have hcachei : ∀ ics : List (String × MarkerIcon),
        (mapGet (if (mapGet ics id).isSome then ics
                else mapSet ics id (getMarkerIconByType t.contenttypeid)) id).isSome = true := by
      intro ics
      by_cases hs : (mapGet ics id).isSome = true
      · rw [if_pos hs]
        exact hs
      · rw [if_neg hs, mapGet_mapSet_self]
        rfl
    have hcachek : ∀ k ic, k ≠ id → mapGet s.originalIcons k = some ic →
        mapGet (if (mapGet s.originalIcons id).isSome then s.originalIcons
                else mapSet s.originalIcons id (getMarkerIconByType t.contenttypeid)) k =
          some ic := by
      intro k ic hk hick
      by_cases hs : (mapGet s.originalIcons id).isSome = true
      · rw [if_pos hs]
        exact hick
      · rw [if_neg hs, mapGet_mapSet_ne _ _ _ _ hk]
        exact hick
    cases hh : s.highlightedMarkerId with
    | none =>
      rw [highlightMarker_spec_idle tours id s idx t hidx hmk hft hready hh]
      exact ⟨rfl, rfl, fun j => updateAt_get?_isNone _ _ _ _, hcachei s.originalIcons,
        hcachek, hready⟩
    | some prev =>
      have hprevne : prev ≠ id := fun he => hsame (by rw [hh, he])
      rw [hh] at h2
      obtain ⟨pidx, hpidx, hplt, hpcache, hpothers⟩ := h2
      obtain ⟨icPrev, hpic⟩ := Option.isSome_iff_exists.mp hpcache
      have hpmk : (s.markers.get? pidx).isNone = false := by
        rw [List.get?_eq_get hplt]
        rfl
      rw [highlightMarker_spec_prev tours id s idx t prev pidx icPrev hidx hmk hft hready hh
        hprevne hpidx hpmk hpic]
      refine ⟨rfl, rfl, fun j => ?_, hcachei s.originalIcons, hcachek, hready⟩
      rw [updateAt_get?_isNone, updateAt_get?_isNone]

/-! ### Claim C4: the highlight state machine -/

/-- Claim C4 (with the emphasized icon variant modelled from the spec): in
every reachable state at most one marker displays the emphasized icon;
highlighting A and then B (with A ≠ B, both with live markers and entities,
SDK ready) leaves exactly B's marker emphasized and restores A's marker to
the exact cached original icon value; and re-highlighting the currently
highlighted id is a no-op. -/
theorem claim_C4_highlight :
    (∀ tours : List TourItem, ∀ s : MapState, Reachable tours s → emphCount s ≤ 1) ∧
    (∀ tours : List TourItem, ∀ s : MapState, ∀ A B : String, ∀ iA iB : Nat,
      ∀ tA tB : TourItem,
      Reachable tours s → A ≠ B →
      mapGet s.markerIndexMap A = some iA → (s.markers.get? iA).isNone = false →
      tours.find? (fun t => t.contentid = A) = some tA →
      mapGet s.markerIndexMap B = some iB → (s.markers.get? iB).isNone = false →
      tours.find? (fun t => t.contentid = B) = some tB →
      s.sdkReady = true →
      (highlightMarker tours B (highlightMarker tours A s)).highlightedMarkerId = some B ∧
      (∃ mB : Marker,
        (highlightMarker tours B (highlightMarker tours A s)).markers.get? iB = some mB ∧
        mB.icon = getHighlightedMarkerIconByType tB.contenttypeid) ∧
      (∃ ic : MarkerIcon, ∃ mA : Marker,
        mapGet (highlightMarker tours B (highlightMarker tours A s)).originalIcons A =
          some ic ∧
        (highlightMarker tours B (highlightMarker tours A s)).markers.get? iA = some mA ∧
        mA.icon = ic ∧ isEmphasized ic = false) ∧
      emphCount (highlightMarker tours B (highlightMarker tours A s)) = 1) ∧
    (∀ tours : List TourItem, ∀ s : MapState, ∀ id : String,
      s.highlightedMarkerId = some id → highlightMarker tours id s = s) := by
  refine ⟨?_, ?_, fun tours s id h => highlightMarker_noop_of_same tours id s h⟩
  · intro tours s hreach
    obtain ⟨g1, g2, g3, g4⟩ := Reachable_Inv tours s hreach
    unfold emphCount
    cases hh : s.highlightedMarkerId with
    | none =>
      rw [hh] at g2
      have := countP_eq_zero_of_all s.markers _ (fun m hm => g2 m hm)
      omega
    | some id =>
      rw [hh] at g2
      obtain ⟨idx, _, _, _, hothers⟩ := g2
      exact countP_le_one_of_unique s.markers _ idx hothers
  · intro tours s A B iA iB tA tB hreach hAB hidxA hmkA hftA hidxB hmkB hftB hready
    have hInv := Reachable_Inv tours s hreach
    have hInv1 := Inv_highlightMarker tours A s hInv
    obtain ⟨hS1, hS2, hS3, hS4, hS5, hS6⟩ :=
      highlightMarker_success tours A s iA tA hInv hidxA hmkA hftA hready
    have hiAB : iA ≠ iB := by
      intro he
      obtain ⟨_, _, hinj, _⟩ := hInv
      exact hAB (hinj A B iA hidxA (by rw [he]; exact hidxB))
    obtain ⟨icA, hicA⟩ := Option.isSome_iff_exists.mp hS4
    obtain ⟨j1, hj2, hj3, hj4⟩ := hInv1
    have hicAn : isEmphasized icA = false :=
      j1 (A, icA) (mapGet_mem _ _ _ hicA)
    rw [hS1] at hj2
    obtain ⟨idx', hidx', hlt', hcache', hothers'⟩ := hj2
    have hidxeq : idx' = iA := by
      rw [hS2] at hidx'
      rw [hidx'] at hidxA
      simpa using hidxA
    rw [hidxeq] at hothers'
    have hidxB1 : mapGet (highlightMarker tours A s).markerIndexMap B = some iB := by
      rw [hS2]
      exact hidxB
    have hmkB1 : ((highlightMarker tours A s).markers.get? iB).isNone = false := by
      rw [hS3]
      exact hmkB
    have hidxA1 : mapGet (highlightMarker tours A s).markerIndexMap A = some iA := by
      rw [hS2]
      exact hidxA
    have hmkA1 : ((highlightMarker tours A s).markers.get? iA).isNone = false := by
      rw [hS3]
      exact hmkA
    rw [highlightMarker_spec_prev tours B (highlightMarker tours A s) iB tB A iA icA
      hidxB1 hmkB1 hftB hS6 hS1 hAB hidxA1 hmkA1 hicA]
    obtain ⟨mB0, hmB0⟩ : ∃ mB0, (highlightMarker tours A s).markers.get? iB = some mB0 := by
      cases hq : (highlightMarker tours A s).markers.get? iB with
      | none => rw [hq] at hmkB1; simp at hmkB1
      | some mB0 => exact ⟨mB0, rfl⟩
    obtain ⟨mA0, hmA0⟩ : ∃ mA0, (highlightMarker tours A s).markers.get? iA = some mA0 := by
      cases hq : (highlightMarker tours A s).markers.get? iA with
      | none => rw [hq] at hmkA1; simp at hmkA1
      | some mA0 => exact ⟨mA0, rfl⟩
    have hgetB : (updateAt (updateAt (highlightMarker tours A s).markers iA
        (fun m => { m with icon := icA })) iB
        (fun m => { m with icon := getHighlightedMarkerIconByType tB.contenttypeid })).get? iB =
        some { mB0 with icon := getHighlightedMarkerIconByType tB.contenttypeid } := by
      rw [updateAt_get?_self, updateAt_get?_ne _ _ _ _ hiAB, hmB0]
      rfl
    have hgetA : (updateAt (updateAt (highlightMarker tours A s).markers iA
        (fun m => { m with icon := icA })) iB
        (fun m => { m with icon := getHighlightedMarkerIconByType tB.contenttypeid })).get? iA =
        some { mA0 with icon := icA } := by
      rw [updateAt_get?_ne _ _ _ _ (fun he => hiAB he.symm), updateAt_get?_self, hmA0]
      rfl
    refine ⟨rfl, ⟨_, hgetB, rfl⟩, ⟨icA, _, ?_, hgetA, rfl, hicAn⟩, ?_⟩
    · dsimp only
      by_cases hs : (mapGet (highlightMarker tours A s).originalIcons B).isSome = true
      · rw [if_pos hs]
        exact hicA
      · rw [if_neg hs, mapGet_mapSet_ne _ _ _ _ hAB]
        exact hicA
    · unfold emphCount
      dsimp only
      refine countP_eq_one_of_unique _ _ iB _ hgetB (isEmphasized_highlighted _) ?_
      intro j hj b hb
      by_cases hjA : j = iA
      · subst hjA
        rw [hgetA] at hb
        rw [show b = { mA0 with icon := icA } from by simpa using hb.symm]
        exact hicAn
      · rw [updateAt_get?_ne _ _ _ _ (fun he => hj he.symm),
          updateAt_get?_ne _ _ _ _ (fun he => hjA he.symm)] at hb
        exact hothers' j hjA b hb

/-- Claim C4 witness at a concrete two-marker session. -/
theorem claim_C4_witness :
    ((highlightMarker [demoTourA, demoTourB] "b2"
        (highlightMarker [demoTourA, demoTourB] "a1"
          (rebuildSession [demoTourA, demoTourB] (initState true)).1)).highlightedMarkerId =
      some "b2" ∧
      emphCount (highlightMarker [demoTourA, demoTourB] "b2"
        (highlightMarker [demoTourA, demoTourB] "a1"
          (rebuildSession [demoTourA, demoTourB] (initState true)).1)) = 1) ∧
    highlightMarker [demoTourA, demoTourB] "a1"
        (highlightMarker [demoTourA, demoTourB] "a1"
          (rebuildSession [demoTourA, demoTourB] (initState true)).1) =
      highlightMarker [demoTourA, demoTourB] "a1"
        (rebuildSession [demoTourA, demoTourB] (initState true)).1 := by
  have hreach : Reachable [demoTourA, demoTourB]
      (rebuildSession [demoTourA, demoTourB] (initState true)).1 :=
    Reachable.rebuild [demoTourA, demoTourB] (initState true)
      (Reachable.init [demoTourA, demoTourB] true)
  have h := claim_C4_highlight.2.1 [demoTourA, demoTourB]
    (rebuildSession [demoTourA, demoTourB] (initState true)).1
    "a1" "b2" 0 1 demoTourA demoTourB hreach (by decide) (by decide) (by decide)
    (by decide) (by decide) (by decide) (by decide) (by decide)
  have h2 := claim_C4_highlight.2.2 [demoTourA, demoTourB]
    (highlightMarker [demoTourA, demoTourB] "a1"
      (rebuildSession [demoTourA, demoTourB] (initState true)).1) "a1" (by decide)
  exact ⟨⟨h.1, h.2.2.2⟩, h2⟩

theorem jsFindIndex_of_find? {α : Type} (p : α → Bool) (l : List α) (a : α)
    (h : l.find? p = some a) :
    ∃ k : Nat, jsFindIndex p l = some k ∧ l.get? k = some a ∧ p a = true := by
  induction l with
  | nil => simp at h
  | cons x xs ih =>
    by_cases hp : p x = true
    · rw [List.find?_cons_of_pos _ hp] at h
      have hxa : x = a := by simpa using h
      subst hxa
      exact ⟨0, by simp [jsFindIndex, hp], rfl, hp⟩
    · rw [List.find?_cons_of_neg _ (by simpa using hp)] at h
      obtain ⟨k, h1, h2, h3⟩ := ih h
      refine ⟨k + 1, ?_, by simpa using h2, h3⟩
      simp [jsFindIndex, hp, h1]

/-! ### Claim C10: `moveToMarker` under index alignment -/

/-- Claim C10: when the info-window array is aligned index-for-index with
the entity list (as produced by a rebuild in which every entity resolves),
`moveToMarker id` for an id present in the list recenters the map on the
entity's normalized position, closes every info window, and opens exactly
the info window belonging to id, located at the id's index in the full
entity list. -/
theorem claim_C10_moveToMarker :
    ∀ tours : List TourItem, ∀ s : MapState, ∀ id : String, ∀ tour : TourItem,
      ∀ c : Coordinates, ∀ m : NaverMapInst,
      (∀ j : Nat, (s.infoWindows.get? j).map InfoWindow.contentId =
        (tours.get? j).map TourItem.contentid) →
      tours.find? (fun t => t.contentid = id) = some tour →
      getTourCoordinates tour = some c →
      s.mapInstance = some m →
      (moveToMarker tours id s).mapInstance =
        some { m with center := { lat := c.latitude, lng := c.longitude } } ∧
      ∃ k : Nat, jsFindIndex (fun t => t.contentid = id) tours = some k ∧
        (∃ w : InfoWindow, (moveToMarker tours id s).infoWindows.get? k = some w ∧
          w.contentId = id ∧ w.isOpen = true) ∧
        (∀ j : Nat, j ≠ k → ∀ w : InfoWindow,
          (moveToMarker tours id s).infoWindows.get? j = some w → w.isOpen = false) := by
  intro tours s id tour c m halign hfind hc hm
  obtain ⟨k, hk, hgetk, hpk⟩ := jsFindIndex_of_find? _ tours tour hfind
  have hcid : tour.contentid = id := by simpa using hpk
  have hiwk : (s.infoWindows.get? k).map InfoWindow.contentId = some id := by
    rw [halign k, hgetk]
    simp [hcid]
  obtain ⟨w0, hw0⟩ : ∃ w0, s.infoWindows.get? k = some w0 := by
    cases hq : s.infoWindows.get? k with
    | none => rw [hq] at hiwk; simp at hiwk
    | some w0 => exact ⟨w0, rfl⟩
  have hw0id : w0.contentId = id := by
    rw [hw0] at hiwk
    simpa using hiwk
  unfold moveToMarker
  rw [hfind]
  dsimp only
  rw [hm]
  dsimp only
  rw [hc]
  dsimp only
  rw [hk]
  dsimp only
  rw [if_pos (by rw [hw0]; rfl)]
  refine ⟨rfl, k, rfl, ?_, ?_⟩
  · rw [updateAt_get?_self, List.get?_map, hw0]
    exact ⟨_, rfl, hw0id, rfl⟩
  · intro j hj w hw
    rw [updateAt_get?_ne _ _ _ _ (fun he => hj he.symm), List.get?_map] at hw
    cases hq2 : s.infoWindows.get? j with
    | none => rw [hq2] at hw; simp at hw
    | some old =>
      rw [hq2] at hw
      rw [show w = { old with isOpen := false } from by simpa using hw.symm]

/-- Claim C10 witness at a concrete aligned two-entity session. -/
theorem claim_C10_witness :
    (moveToMarker [demoTourA, demoTourB] "b2"
        (rebuildSession [demoTourA, demoTourB] (initState true)).1).mapInstance =
      some { center := { lat := some (Rat.divInt 73 2), lng := some (Rat.divInt 255 2) }
             zoom := 8 } ∧
    ∃ k : Nat, jsFindIndex (fun t => t.contentid = "b2") [demoTourA, demoTourB] = some k ∧
      (∃ w : InfoWindow,
        (moveToMarker [demoTourA, demoTourB] "b2"
          (rebuildSession [demoTourA, demoTourB] (initState true)).1).infoWindows.get? k =
          some w ∧ w.contentId = "b2" ∧ w.isOpen = true) ∧
      (∀ j : Nat, j ≠ k → ∀ w : InfoWindow,
        (moveToMarker [demoTourA, demoTourB] "b2"
          (rebuildSession [demoTourA, demoTourB] (initState true)).1).infoWindows.get? j =
          some w → w.isOpen = false) := by
  have h := claim_C10_moveToMarker [demoTourA, demoTourB]
    (rebuildSession [demoTourA, demoTourB] (initState true)).1 "b2" demoTourB
    { longitude := some (Rat.divInt 255 2), latitude := some (Rat.divInt 73 2) }
    { center := { lat := some 37, lng := some 127 }, zoom := 8 }
    (fun j => by
      match j with
      | 0 => rfl
      | 1 => rfl
      | n + 2 => rfl)
    (by decide) (by decide) (by decide)
  exact ⟨h.1, h.2⟩

end MyTrip
